import Mathlib

/-!
# The TCP control block of `seqs`: user interface (`control_user.go`)

A shallow embedding of `ControlBlock.Open`, `Close`, `Send` and `Recv`.

* Machine integers (`Value`, `Size`, `Flags`) are natural numbers; wrap-around
  is written out with `% 2 ^ 32` where the Go code does arithmetic.
* A method with a pointer receiver becomes a function that returns the new
  control block; a returned `error` is an `Option Err` (`none` is Go's `nil`).
* `control_user.go` calls methods whose bodies are in another file of the
  package.  The segment validators and the per-state receive handlers are
  passed to `Send` and `Recv` as a record of functions (`Methods`), so that
  what is proved about `Send` and `Recv` holds for every implementation of
  them.  The small helpers (`resetSnd`, `resetRcv`, `close`, `LEN`, ...) are
  modelled from the specification and marked as such.
* Logging (`tcb.debug`, `tcb.log`) is not part of the model.
-/

namespace Seqs

/-! ## Data model -/

/-- Modelled from the spec: the declaration of `Value` is not in the sources.
A 32-bit unsigned TCP sequence/ack number (spec §3); arithmetic on it is
explicit modulo `2 ^ 32`. -/
abbrev Value := Nat

/-- Modelled from the spec: the declaration of `Size` is not in the sources.
An unsigned 32-bit window or byte count (spec §3, §4.8). -/
abbrev Size := Nat

/-- Modelled from the spec: the declaration of `Flags` is not in the sources.
A bit set of TCP control flags (spec §3). -/
abbrev Flags := Nat

/-- Go's `math.MaxUint16`. -/
def MaxUint16 : Nat := 65535

/-- Modelled from the spec: the flag constants are not in the sources; they are
given the bit positions of the TCP header (RFC 9293, 3.1). -/
def FlagFIN : Flags := 1

/-- Modelled from the spec: see `FlagFIN`. -/
def FlagSYN : Flags := 2

/-- Modelled from the spec: see `FlagFIN`. -/
def FlagRST : Flags := 4

/-- Modelled from the spec: see `FlagFIN`. -/
def FlagPSH : Flags := 8

/-- Modelled from the spec: see `FlagFIN`. -/
def FlagACK : Flags := 16

/-- Modelled from the spec: the constant `finack` is not in the sources; the
tests define it as `FlagFIN | FlagACK` (stacks_test.go:282). -/
def finack : Flags := FlagFIN ||| FlagACK

/-- Modelled from the spec: the constant `synack`, `FlagSYN | FlagACK`. -/
def synack : Flags := FlagSYN ||| FlagACK

/-- Modelled from the spec: `Flags.HasAny` is not in the sources; "has any of"
(spec §3): some bit of `mask` is set in `flags`. -/
def Flags.HasAny (flags mask : Flags) : Bool := flags &&& mask != 0

/-- Go's `flags &^ mask` (AND NOT): the bits of `flags` that are not in
`mask`. -/
def Flags.clear (flags mask : Flags) : Flags := flags ^^^ (flags &&& mask)

/-- Modelled from the spec: the declaration of `State` is not in the sources;
the eleven states in the order of spec §3. -/
inductive State
  | StateClosed
  | StateListen
  | StateSynSent
  | StateSynRcvd
  | StateEstablished
  | StateFinWait1
  | StateFinWait2
  | StateCloseWait
  | StateClosing
  | StateLastAck
  | StateTimeWait
  deriving DecidableEq, Repr

/-- The package-level error values of control_user.go:14-29, one constructor
per variable.  `errWindowTooLarge` is named by `Open` (line 51); its
declaration is not in the sources. -/
inductive Err
  | errTCBNotClosed
  | errInvalidState
  | errConnNotexist
  | errConnectionClosing
  | errExpectedSYN
  | errBadSegack
  | errFinwaitExpectedACK
  | errFinwaitExpectedFinack
  | errWindowOverflow
  | errSeqNotInWindow
  | errLastNotInWindow
  | errRequireSequential
  | errAckNotNext
  | errWindowTooLarge
  deriving DecidableEq, Repr

/-- Modelled from the spec: the declaration of `Segment` is not in the sources
(spec §3). -/
structure Segment where
  SEQ : Value
  ACK : Value
  DATALEN : Size
  WND : Size
  Flags : Flags
  deriving DecidableEq, Repr

/-- Modelled from the spec: the declaration of `sendSpace` is not in the
sources (spec §3; the field names are those of internal_test.go:47-53). -/
structure sendSpace where
  ISS : Value
  UNA : Value
  NXT : Value
  WND : Size
  UP : Size
  WL1 : Value
  WL2 : Value
  deriving DecidableEq, Repr

/-- Modelled from the spec: the declaration of `recvSpace` is not in the
sources (spec §3; internal_test.go:54-56). -/
structure recvSpace where
  IRS : Value
  NXT : Value
  WND : Size
  UP : Size
  deriving DecidableEq, Repr

/-- Modelled from the spec: the declaration of `ControlBlock` is not in the
sources (spec §3).  `pending` is Go's `[2]Flags`: `pending.1` is slot 0 and
`pending.2` is slot 1.  The logger is left out. -/
structure ControlBlock where
  state : State
  snd : sendSpace
  rcv : recvSpace
  pending : Flags × Flags
  deriving DecidableEq, Repr

/-- Modelled from the spec: `Segment.LEN` is not in the sources.  Spec §3:
`LEN = DATALEN + (SYN? 1 : 0) + (FIN? 1 : 0)`, a `Size` (32 bits). -/
def Segment.LEN (seg : Segment) : Size :=
  (seg.DATALEN + (if seg.Flags.HasAny FlagSYN then 1 else 0)
    + (if seg.Flags.HasAny FlagFIN then 1 else 0)) % 2 ^ 32

/-- Modelled from the spec: `Value.UpdateForward` is not in the sources.  It
moves a sequence number forward by a size, modulo `2 ^ 32` (spec §3, §4.6). -/
def Value.UpdateForward (v : Value) (s : Size) : Value := (v + s) % 2 ^ 32

/-- Modelled from the spec: `Sizeof` is not in the sources.  Spec §4.1:
`Sizeof(a, b) = (b − a) mod 2³²`. -/
def Sizeof (a b : Value) : Size := (b + (2 ^ 32 - a % 2 ^ 32)) % 2 ^ 32

/-- Modelled from the spec: `Value.InWindow` is not in the sources.  Spec §4.1:
`seq` lies in the half-open window `[start, start+width)` modulo `2³²`. -/
def Value.InWindow (seq start : Value) (width : Size) : Bool :=
  decide (Sizeof start seq < width)

/-- Modelled from the spec: `resetSnd` is not in the sources.  `Open` calls
`resetSnd(iss, 1)`.  After `Open` the first SYN carries `SEQ = iss = snd.NXT`
(spec §6, §8 scenario 1) and is acknowledged by `ISS + 1` (§4.5), so the send
space starts with `ISS = UNA = NXT = iss` and the SYN moves `NXT` to
`iss + 1`, the value spec §4.4 gives; the second argument is the send window,
one byte as in `HelperInitState` (internal_test.go:51), room for the SYN. -/
def ControlBlock.resetSnd (tcb : ControlBlock) (localISS : Value) (remoteWND : Size) :
    ControlBlock :=
  { tcb with snd := { ISS := localISS, UNA := localISS, NXT := localISS,
                      WND := remoteWND, UP := 0, WL1 := 0, WL2 := 0 } }

/-- Modelled from the spec: `resetRcv` is not in the sources.  `Open` calls
`resetRcv(wnd, 0)`, of which spec §4.4 says: "reinitialize `rcv` with
`WND=wnd, NXT=0, IRS=0`"; the second argument is the initial receive
sequence. -/
def ControlBlock.resetRcv (tcb : ControlBlock) (localWND : Size) (remoteISS : Value) : ControlBlock :=
  { tcb with rcv := { IRS := remoteISS, NXT := remoteISS, WND := localWND, UP := 0 } }

/-- Modelled from the spec: the method `close` is not in the sources.  Spec
§4.4: LISTEN and SYN-SENT "immediately collapse to CLOSED"; §8: "returns to
CLOSED with no pending flags"; §4.8 and control_user.go:191: the receive
window is 0 once closed. -/
def ControlBlock.close (tcb : ControlBlock) : ControlBlock :=
  { tcb with state := State.StateClosed, pending := (0, 0), rcv := { tcb.rcv with WND := 0 } }

/-- The result of a per-state receive handler: the control block as the
handler left it, the pending flags and the error it returned. -/
structure Handled where
  tcb : ControlBlock
  pending : Flags
  err : Option Err
  deriving DecidableEq, Repr

/-- The methods that `Send` and `Recv` call and whose bodies are not in the
sources.  The validators only inspect the control block (spec §4.3:
"Rejection never mutates TCB state"); the handlers have a pointer receiver and
may change it. -/
structure Methods where
  validateOutgoingSegment : ControlBlock → Segment → Option Err
  validateIncomingSegment : ControlBlock → Segment → Option Err
  rcvListen : ControlBlock → Segment → Handled
  rcvSynSent : ControlBlock → Segment → Handled
  rcvSynRcvd : ControlBlock → Segment → Handled
  rcvEstablished : ControlBlock → Segment → Handled
  rcvFinWait1 : ControlBlock → Segment → Handled
  rcvFinWait2 : ControlBlock → Segment → Handled

/-- What a call of `Recv` does: it returns (with the control block it leaves
and the error), or it panics (control_user.go:163) with the control block as
it is at that point. -/
inductive Outcome
  | returned (tcb : ControlBlock) (err : Option Err)
  | panicked (tcb : ControlBlock)
  deriving DecidableEq, Repr

/-- The control block a call of `Recv` leaves behind. -/
def Outcome.tcb : Outcome → ControlBlock
  | Outcome.returned tcb _ => tcb
  | Outcome.panicked tcb => tcb

/-! ## control_user.go -/

/-- Method `ControlBlock.State` (control_user.go:40). -/
def ControlBlock.State (tcb : ControlBlock) : State := tcb.state

/-- Method `ControlBlock.Open` (control_user.go:44-64). -/
def ControlBlock.Open (tcb : ControlBlock) (iss : Value) (wnd : Size) (state : Seqs.State) :
    ControlBlock × Option Err :=
  let err : Option Err :=
    if tcb.state ≠ State.StateClosed ∧ tcb.state ≠ State.StateListen then
      some Err.errTCBNotClosed
    else if state ≠ State.StateListen ∧ state ≠ State.StateSynSent then
      some Err.errInvalidState
    else if wnd > MaxUint16 then
      some Err.errWindowTooLarge
    else none
  match err with
  | some e => (tcb, some e)
  | none =>
    let tcb := { tcb with state := state }
    let tcb := tcb.resetRcv wnd 0
    let tcb := tcb.resetSnd iss 1
    let tcb := { tcb with pending := (0, 0) }
    let tcb := if state = State.StateSynSent then { tcb with pending := (FlagSYN, tcb.pending.2) } else tcb
    (tcb, none)

/-- Method `ControlBlock.Close` (control_user.go:66-84). -/
def ControlBlock.Close (tcb : ControlBlock) : ControlBlock × Option Err :=
  match tcb.state with
  | State.StateClosed => (tcb, some Err.errConnNotexist)
  | State.StateCloseWait =>
    ({ tcb with state := State.StateLastAck, pending := (FlagFIN, FlagACK) }, none)
  | State.StateListen => (tcb.close, none)
  | State.StateSynSent => (tcb.close, none)
  | State.StateSynRcvd =>
    ({ tcb with pending := ((tcb.pending.1 &&& FlagACK) ||| FlagFIN, tcb.pending.2) }, none)
  | State.StateEstablished =>
    ({ tcb with pending := ((tcb.pending.1 &&& FlagACK) ||| FlagFIN, tcb.pending.2) }, none)
  | State.StateFinWait2 => (tcb, some Err.errConnectionClosing)
  | State.StateTimeWait => (tcb, some Err.errConnectionClosing)
  | _ => (tcb, none)

/-- Method `ControlBlock.Send` (control_user.go:88-130). -/
def ControlBlock.Send (m : Methods) (tcb : ControlBlock) (seg : Segment) :
    ControlBlock × Option Err :=
  match m.validateOutgoingSegment tcb seg with
  | some e => (tcb, some e)
  | none =>
    let hasFIN := seg.Flags.HasAny FlagFIN
    let hasACK := seg.Flags.HasAny FlagACK
    -- The switch on tcb.state: the new state and newPending.
    let sw : Seqs.State × Flags :=
      match tcb.state with
      | State.StateSynRcvd => (if hasFIN then State.StateFinWait1 else tcb.state, 0)
      | State.StateClosing => (if hasACK then State.StateTimeWait else tcb.state, 0)
      | State.StateEstablished => (if hasFIN then State.StateFinWait1 else tcb.state, 0)
      | State.StateCloseWait =>
        if hasFIN then (State.StateLastAck, 0)
        else if hasACK then (tcb.state, finack)
        else (tcb.state, 0)
      | _ => (tcb.state, 0)
    let newPending := sw.2
    -- Advance pending flags queue.
    let p0 := Flags.clear tcb.pending.1 seg.Flags
    let pending : Flags × Flags := if p0 = 0 then (tcb.pending.2, 0) else (p0, tcb.pending.2)
    let pending : Flags × Flags := (pending.1 ||| newPending, pending.2)
    -- The segment is valid, we can update TCB state.
    let seglen := seg.LEN
    ({ state := sw.1,
       snd := { tcb.snd with NXT := Value.UpdateForward tcb.snd.NXT seglen },
       rcv := { tcb.rcv with WND := seg.WND },
       pending := pending }, none)

/-- The switch on `tcb.state` in `Recv` (control_user.go:144-164): the handler
of the state when there is one, nothing in CLOSE-WAIT, `close` in LAST-ACK on
an ACK, and `none` for the default branch, which panics. -/
def ControlBlock.rcvDispatch (m : Methods) (tcb : ControlBlock) (seg : Segment) : Option Handled :=
  match tcb.state with
  | State.StateListen => some (m.rcvListen tcb seg)
  | State.StateSynSent => some (m.rcvSynSent tcb seg)
  | State.StateSynRcvd => some (m.rcvSynRcvd tcb seg)
  | State.StateEstablished => some (m.rcvEstablished tcb seg)
  | State.StateFinWait1 => some (m.rcvFinWait1 tcb seg)
  | State.StateFinWait2 => some (m.rcvFinWait2 tcb seg)
  | State.StateCloseWait => some { tcb := tcb, pending := 0, err := none }
  | State.StateLastAck =>
    some { tcb := if seg.Flags.HasAny FlagACK then tcb.close else tcb, pending := 0, err := none }
  | _ => none

/-- Method `ControlBlock.Recv` (control_user.go:136-184).  The debug log of lines
170-174 is left out. -/
def ControlBlock.Recv (m : Methods) (tcb : ControlBlock) (seg : Segment) : Outcome :=
  match m.validateIncomingSegment tcb seg with
  | some e => Outcome.returned tcb (some e)
  | none =>
    match tcb.rcvDispatch m seg with
    | none => Outcome.panicked tcb
    | some h =>
      match h.err with
      | some e => Outcome.returned h.tcb (some e)
      | none =>
        let tcb := h.tcb
        let tcb := { tcb with pending := (h.pending, tcb.pending.2) }
        -- We accept the segment and update TCB state.
        let tcb := { tcb with snd := { tcb.snd with WND := seg.WND } }
        let tcb := if seg.Flags.HasAny FlagACK then
          { tcb with snd := { tcb.snd with UNA := seg.ACK } } else tcb
        let seglen := seg.LEN
        let tcb := { tcb with rcv := { tcb.rcv with NXT := Value.UpdateForward tcb.rcv.NXT seglen } }
        Outcome.returned tcb none

/-- Method `ControlBlock.RecvNext` (control_user.go:189). -/
def ControlBlock.RecvNext (tcb : ControlBlock) : Value := tcb.rcv.NXT

/-- Method `ControlBlock.RecvWindow` (control_user.go:192). -/
def ControlBlock.RecvWindow (tcb : ControlBlock) : Size := tcb.rcv.WND

/-- Method `ControlBlock.ISS` (control_user.go:195). -/
def ControlBlock.ISS (tcb : ControlBlock) : Value := tcb.snd.ISS

/-- Method `ControlBlock.SetRecvWindow` (control_user.go:208-210). -/
def ControlBlock.SetRecvWindow (tcb : ControlBlock) (wnd : Size) : ControlBlock :=
  { tcb with rcv := { tcb.rcv with WND := wnd } }

/-! ## The methods of the package that are not in the sources

One implementation of `Methods`, written from the specification (§4.3, §4.5).
What holds for every implementation is stated below for an arbitrary `Methods`
and instantiated with this one on concrete control blocks and segments; what
depends on the validators or handlers themselves is stated for this one. -/

/-- Modelled from the spec: the ordering of states is not in the sources.
The states "≥ SYN-RCVD" of spec §4.3, in the order of spec §3: all but CLOSED,
LISTEN and SYN-SENT. -/
def State.sinceSynRcvd : State → Bool
  | State.StateClosed => false
  | State.StateListen => false
  | State.StateSynSent => false
  | _ => true

/-- Modelled from the spec: "the natural control bits of current state" (§4.3)
are not spelled out there; read here as ACK and PSH once the connection is
synchronised (≥ SYN-RCVD) and none before ("cannot send FIN while in
LISTEN"). -/
def State.naturalFlags (s : State) : Flags :=
  if s.sinceSynRcvd then FlagACK ||| FlagPSH else 0

/-- Modelled from the spec: the last sequence number of a segment,
`seg.SEQ + seg.LEN − 1` modulo `2³²` (§4.3).  A segment of length 0 has no
last byte; its own sequence number is taken, so that the pure ACKs of spec §8
(scenarios 1 and 2) are inside the window. -/
def Segment.Last (seg : Segment) : Value :=
  if seg.LEN = 0 then seg.SEQ else (seg.SEQ + seg.LEN + (2 ^ 32 - 1)) % 2 ^ 32

/-- Modelled from the spec: `validateOutgoingSegment` is not in the sources.
Spec §4.3, the four failure conditions in the order listed, and after the
sequence check the window check that the text of `errLastNotInWindow`
(control_user.go:26, "last not in snd/rcv.wnd") stands for: the last byte of
the segment lies in `[snd.NXT, snd.NXT + snd.WND)`, as for `rcv` in the
incoming direction.  The spec names the error of the first condition only;
`errSeqNotInWindow`, `errAckNotNext` and `errInvalidState` are this model's
reading for the other three. -/
def ControlBlock.validateOutgoingSegment (tcb : ControlBlock) (seg : Segment) : Option Err :=
  if seg.WND > 2 ^ 16 then some Err.errWindowOverflow
  else if seg.SEQ ≠ tcb.snd.NXT then some Err.errSeqNotInWindow
  else if !(Value.InWindow seg.Last tcb.snd.NXT tcb.snd.WND) then some Err.errLastNotInWindow
  else if seg.Flags.HasAny FlagACK && seg.ACK != tcb.rcv.NXT then some Err.errAckNotNext
  else if Flags.clear seg.Flags (tcb.pending.1 ||| tcb.state.naturalFlags) ≠ 0 then
    some Err.errInvalidState
  else none

/-- Modelled from the spec: `validateIncomingSegment` is not in the sources.
Spec §4.3, the five failure conditions in the order listed.  The spec does not
name the error of the last one (the flags a state accepts); this model returns
`errSeqNotInWindow` for it. -/
def ControlBlock.validateIncomingSegment (tcb : ControlBlock) (seg : Segment) : Option Err :=
  let synced := tcb.state.sinceSynRcvd
  if seg.WND > 2 ^ 16 then some Err.errWindowOverflow
  else if synced && seg.SEQ != tcb.rcv.NXT then some Err.errRequireSequential
  else if synced && !(Value.InWindow seg.Last tcb.rcv.NXT tcb.rcv.WND) then
    some Err.errLastNotInWindow
  else if seg.Flags.HasAny FlagACK && synced
      && decide (Sizeof tcb.snd.UNA seg.ACK > Sizeof tcb.snd.UNA tcb.snd.NXT) then
    some Err.errAckNotNext
  else
    match tcb.state with
    | State.StateListen => if seg.Flags = FlagSYN then none else some Err.errSeqNotInWindow
    | State.StateSynSent =>
      if seg.Flags = FlagSYN ∨ seg.Flags = synack then none else some Err.errSeqNotInWindow
    | _ => if seg.Flags.HasAny FlagSYN then some Err.errSeqNotInWindow else none

/-- Modelled from the spec: `rcvListen` is not in the sources.  Spec §4.5:
"LISTEN | Recv | SYN | SYN-RCVD; record IRS, set rcv.NXT=IRS+1, enqueue
SYN|ACK"; `Recv` itself adds the segment length to `rcv.NXT`, so the handler
leaves `rcv.NXT = IRS`.  Without SYN: `errExpectedSYN`, nothing changed. -/
def ControlBlock.rcvListen (tcb : ControlBlock) (seg : Segment) : Handled :=
  if !seg.Flags.HasAny FlagSYN then { tcb := tcb, pending := 0, err := some Err.errExpectedSYN }
  else
    { tcb := { (tcb.resetRcv tcb.rcv.WND seg.SEQ) with state := State.StateSynRcvd },
      pending := synack, err := none }

/-- Modelled from the spec: `rcvSynSent` is not in the sources.  Spec §4.5:
"SYN-SENT | Recv | SYN|ACK (ack=ISS+1) | ESTABLISHED; enqueue ACK" and
"SYN-SENT | Recv | SYN (no ACK) | SYN-RCVD; enqueue SYN|ACK"; the initial
receive sequence is recorded as in LISTEN (§8, scenario 1). -/
def ControlBlock.rcvSynSent (tcb : ControlBlock) (seg : Segment) : Handled :=
  let hasSyn := seg.Flags.HasAny FlagSYN
  let hasAck := seg.Flags.HasAny FlagACK
  if !hasSyn then { tcb := tcb, pending := 0, err := some Err.errExpectedSYN }
  else if hasAck && seg.ACK != (tcb.snd.ISS + 1) % 2 ^ 32 then
    { tcb := tcb, pending := 0, err := some Err.errBadSegack }
  else if hasAck then
    { tcb := { (tcb.resetRcv tcb.rcv.WND seg.SEQ) with state := State.StateEstablished },
      pending := FlagACK, err := none }
  else
    { tcb := { (tcb.resetRcv tcb.rcv.WND seg.SEQ) with state := State.StateSynRcvd },
      pending := synack, err := none }

/-- Modelled from the spec: `rcvSynRcvd` is not in the sources.  Spec §4.5:
"SYN-RCVD | Recv | ACK (acks our SYN) | ESTABLISHED"; otherwise
`errBadSegack`, nothing changed. -/
def ControlBlock.rcvSynRcvd (tcb : ControlBlock) (seg : Segment) : Handled :=
  if seg.Flags.HasAny FlagACK && seg.ACK == (tcb.snd.ISS + 1) % 2 ^ 32 then
    { tcb := { tcb with state := State.StateEstablished }, pending := 0, err := none }
  else { tcb := tcb, pending := 0, err := some Err.errBadSegack }

/-- Modelled from the spec: `rcvEstablished` is not in the sources.  Spec
§4.5: "ESTABLISHED | Recv | FIN | CLOSE-WAIT; enqueue ACK"; no other row, so
any other segment leaves the state alone and enqueues nothing. -/
def ControlBlock.rcvEstablished (tcb : ControlBlock) (seg : Segment) : Handled :=
  if seg.Flags.HasAny FlagFIN then
    { tcb := { tcb with state := State.StateCloseWait }, pending := FlagACK, err := none }
  else { tcb := tcb, pending := 0, err := none }

/-- Modelled from the spec: `rcvFinWait1` is not in the sources.  Spec §4.5,
the three FIN-WAIT-1 rows and the tie rule: FIN first, then the ACK of our FIN
(`seg.ACK = snd.NXT`) tells TIME-WAIT from CLOSING; neither FIN nor ACK:
`errFinwaitExpectedACK`, nothing changed. -/
def ControlBlock.rcvFinWait1 (tcb : ControlBlock) (seg : Segment) : Handled :=
  let hasFin := seg.Flags.HasAny FlagFIN
  let acksFin := seg.Flags.HasAny FlagACK && seg.ACK == tcb.snd.NXT
  if hasFin && acksFin then
    { tcb := { tcb with state := State.StateTimeWait }, pending := FlagACK, err := none }
  else if hasFin then
    { tcb := { tcb with state := State.StateClosing }, pending := FlagACK, err := none }
  else if acksFin then
    { tcb := { tcb with state := State.StateFinWait2 }, pending := 0, err := none }
  else { tcb := tcb, pending := 0, err := some Err.errFinwaitExpectedACK }

/-- Modelled from the spec: `rcvFinWait2` is not in the sources.  Spec §4.5:
"FIN-WAIT-2 | Recv | FIN | TIME-WAIT; enqueue ACK"; without FIN:
`errFinwaitExpectedFinack`, nothing changed. -/
def ControlBlock.rcvFinWait2 (tcb : ControlBlock) (seg : Segment) : Handled :=
  if seg.Flags.HasAny FlagFIN then
    { tcb := { tcb with state := State.StateTimeWait }, pending := FlagACK, err := none }
  else { tcb := tcb, pending := 0, err := some Err.errFinwaitExpectedFinack }

/-- Modelled from the spec: the validators and receive handlers above,
collected as the `Methods` that `Send` and `Recv` call. -/
def specMethods : Methods where
  validateOutgoingSegment := ControlBlock.validateOutgoingSegment
  validateIncomingSegment := ControlBlock.validateIncomingSegment
  rcvListen := ControlBlock.rcvListen
  rcvSynSent := ControlBlock.rcvSynSent
  rcvSynRcvd := ControlBlock.rcvSynRcvd
  rcvEstablished := ControlBlock.rcvEstablished
  rcvFinWait1 := ControlBlock.rcvFinWait1
  rcvFinWait2 := ControlBlock.rcvFinWait2

/-- A freshly created control block: the zero value, in state CLOSED
(spec §3). -/
def ControlBlock.zero : ControlBlock :=
  { state := State.StateClosed,
    snd := { ISS := 0, UNA := 0, NXT := 0, WND := 0, UP := 0, WL1 := 0, WL2 := 0 },
    rcv := { IRS := 0, NXT := 0, WND := 0, UP := 0 },
    pending := (0, 0) }

/-- The handlers of `m` leave the control block as it was whenever they
return an error (spec §4.7: "on failure, an error (state unchanged)"). -/
def Methods.FailureAtomic (m : Methods) : Prop :=
  ∀ (tcb : ControlBlock) (seg : Segment),
    ((m.rcvListen tcb seg).err ≠ none → (m.rcvListen tcb seg).tcb = tcb) ∧
    ((m.rcvSynSent tcb seg).err ≠ none → (m.rcvSynSent tcb seg).tcb = tcb) ∧
    ((m.rcvSynRcvd tcb seg).err ≠ none → (m.rcvSynRcvd tcb seg).tcb = tcb) ∧
    ((m.rcvEstablished tcb seg).err ≠ none → (m.rcvEstablished tcb seg).tcb = tcb) ∧
    ((m.rcvFinWait1 tcb seg).err ≠ none → (m.rcvFinWait1 tcb seg).tcb = tcb) ∧
    ((m.rcvFinWait2 tcb seg).err ≠ none → (m.rcvFinWait2 tcb seg).tcb = tcb)

/-! ## Sample control blocks and segments -/

/-- An established connection: `ISS = 100`, `IRS = 300`, nothing in flight,
nothing pending, both windows 1000. -/
def sampleEstablished : ControlBlock :=
  { state := State.StateEstablished,
    snd := { ISS := 100, UNA := 101, NXT := 101, WND := 1000, UP := 0, WL1 := 0, WL2 := 0 },
    rcv := { IRS := 300, NXT := 301, WND := 1000, UP := 0 },
    pending := (0, 0) }

/-- The connection of `sampleEstablished` after our FIN went out (FIN-WAIT-1). -/
def sampleFinWait1 : ControlBlock :=
  { sampleEstablished with
    state := State.StateFinWait1,
    snd := { sampleEstablished.snd with NXT := 102 } }

/-- The FIN|ACK that `sampleEstablished` owes after `Close`. -/
def sampleFinAck : Segment :=
  { SEQ := 101, ACK := 301, DATALEN := 0, WND := 1000, Flags := finack }

/-- The peer's FIN|ACK as `sampleEstablished` receives it. -/
def samplePeerFinAck : Segment :=
  { SEQ := 301, ACK := 101, DATALEN := 0, WND := 1000, Flags := finack }

/-- The reject errors: the values made with `newRejectErr`
(control_user.go:24-28). -/
def Err.isReject : Err → Bool
  | Err.errWindowOverflow => true
  | Err.errSeqNotInWindow => true
  | Err.errLastNotInWindow => true
  | Err.errRequireSequential => true
  | Err.errAckNotNext => true
  | _ => false

/-- Modelled from the spec: `PendingSegment` is not in the sources.  Spec §4.2
and §6: the next segment to transmit, made of the flags of pending slot 0, the
payload length, `snd.NXT`, `rcv.NXT` and `rcv.WND`; the zero segment when slot
0 is empty and there is no payload. -/
def ControlBlock.PendingSegment (tcb : ControlBlock) (payloadLen : Size) : Segment :=
  if tcb.pending.1 = 0 ∧ payloadLen = 0 then
    { SEQ := 0, ACK := 0, DATALEN := 0, WND := 0, Flags := 0 }
  else
    { SEQ := tcb.snd.NXT, ACK := tcb.rcv.NXT, DATALEN := payloadLen, WND := tcb.rcv.WND,
      Flags := tcb.pending.1 }

/-- The send-space invariant of spec §8 (1), `UNA ≤ NXT ≤ UNA + WND` in modular
sequence order: `Sizeof(snd.UNA, snd.NXT) ≤ snd.WND`. -/
def ControlBlock.sendSpaceOk (tcb : ControlBlock) : Prop :=
  Sizeof tcb.snd.UNA tcb.snd.NXT ≤ tcb.snd.WND

instance (tcb : ControlBlock) : Decidable tcb.sendSpaceOk :=
  inferInstanceAs (Decidable (_ ≤ _))

/-- The control block that an accepted `Recv` leaves, from the result `hd` of
the switch on the state (control_user.go:169-182). -/
def ControlBlock.recvCommit (hd : Handled) (seg : Segment) : ControlBlock :=
  { state := hd.tcb.state,
    snd := { hd.tcb.snd with
      WND := seg.WND,
      UNA := if seg.Flags.HasAny FlagACK then seg.ACK else hd.tcb.snd.UNA },
    rcv := { hd.tcb.rcv with NXT := Value.UpdateForward hd.tcb.rcv.NXT seg.LEN },
    pending := (hd.pending, hd.tcb.pending.2) }

/-! ## Scenario 1 of spec §8: the three-way handshake -/

/-- A after `Open(100, 1000, SYN-SENT)` on a fresh control block. -/
def hsA0 : ControlBlock := (ControlBlock.zero.Open 100 1000 State.StateSynSent).1

/-- B after `Open(300, 1000, LISTEN)` on a fresh control block. -/
def hsB0 : ControlBlock := (ControlBlock.zero.Open 300 1000 State.StateListen).1

/-- The first segment: the SYN pending on A. -/
def hsSyn : Segment := hsA0.PendingSegment 0

/-- A after sending its SYN. -/
def hsA1 : ControlBlock := (ControlBlock.Send specMethods hsA0 hsSyn).1

/-- B after receiving the SYN. -/
def hsB1 : ControlBlock := (ControlBlock.Recv specMethods hsB0 hsSyn).tcb

/-- The second segment: the SYN|ACK pending on B. -/
def hsSynAck : Segment := hsB1.PendingSegment 0

/-- B after sending its SYN|ACK. -/
def hsB2 : ControlBlock := (ControlBlock.Send specMethods hsB1 hsSynAck).1

/-- A after receiving the SYN|ACK. -/
def hsA2 : ControlBlock := (ControlBlock.Recv specMethods hsA1 hsSynAck).tcb

/-- The third segment: the ACK pending on A. -/
def hsAck : Segment := hsA2.PendingSegment 0

/-- A after sending its ACK. -/
def hsA3 : ControlBlock := (ControlBlock.Send specMethods hsA2 hsAck).1

/-- B after receiving the ACK. -/
def hsB3 : ControlBlock := (ControlBlock.Recv specMethods hsB2 hsAck).tcb

/-! ## Scenario 2 of spec §8: the normal close, after the handshake -/

/-- A after `Close` in ESTABLISHED: a FIN is pending. -/
def clA1 : ControlBlock := hsA3.Close.1

/-- The FIN|ACK that A emits, `{SEQ=101, ACK=301}`. -/
def clFinA : Segment := { SEQ := 101, ACK := 301, DATALEN := 0, WND := 1000, Flags := finack }

/-- A after sending its FIN|ACK (FIN-WAIT-1). -/
def clA2 : ControlBlock := (ControlBlock.Send specMethods clA1 clFinA).1

/-- B after receiving A's FIN|ACK (CLOSE-WAIT). -/
def clB1 : ControlBlock := (ControlBlock.Recv specMethods hsB3 clFinA).tcb

/-- The ACK pending on B, `{SEQ=301, ACK=102}`. -/
def clAckB : Segment := clB1.PendingSegment 0

/-- B after sending its ACK (still CLOSE-WAIT). -/
def clB2 : ControlBlock := (ControlBlock.Send specMethods clB1 clAckB).1

/-- A after receiving B's ACK (FIN-WAIT-2). -/
def clA3 : ControlBlock := (ControlBlock.Recv specMethods clA2 clAckB).tcb

/-- B after `Close` in CLOSE-WAIT (LAST-ACK). -/
def clB3 : ControlBlock := clB2.Close.1

/-- The FIN|ACK that B emits, `{SEQ=301, ACK=102}`. -/
def clFinB : Segment := { SEQ := 301, ACK := 102, DATALEN := 0, WND := 1000, Flags := finack }

/-- B after sending its FIN|ACK (LAST-ACK). -/
def clB4 : ControlBlock := (ControlBlock.Send specMethods clB3 clFinB).1

/-- A after receiving B's FIN|ACK (TIME-WAIT). -/
def clA4 : ControlBlock := (ControlBlock.Recv specMethods clA3 clFinB).tcb

/-- The final ACK pending on A, `{SEQ=102, ACK=302}`. -/
def clAckA : Segment := clA4.PendingSegment 0

/-- A after sending its final ACK (still TIME-WAIT). -/
def clA5 : ControlBlock := (ControlBlock.Send specMethods clA4 clAckA).1

/-- B after receiving the final ACK (CLOSED). -/
def clB5 : ControlBlock := (ControlBlock.Recv specMethods clB4 clAckA).tcb

/-! ## More sample control blocks and segments -/

/-- A connection in CLOSING: our FIN is out (`snd.NXT = 102`), the peer's FIN
has been received (`rcv.NXT = 302`) and its ACK is still pending. -/
def sampleClosing : ControlBlock :=
  { state := State.StateClosing,
    snd := { ISS := 100, UNA := 101, NXT := 102, WND := 1000, UP := 0, WL1 := 0, WL2 := 0 },
    rcv := { IRS := 300, NXT := 302, WND := 1000, UP := 0 },
    pending := (FlagACK, 0) }

/-- The peer's ACK of our FIN, as `sampleClosing` receives it. -/
def samplePeerAckOfFin : Segment :=
  { SEQ := 302, ACK := 102, DATALEN := 0, WND := 1000, Flags := FlagACK }

/-- The control block of spec §8 scenarios 3 and 4: ESTABLISHED with
`rcv.NXT = 500` and `rcv.WND = 10`. -/
def sampleRcv500 : ControlBlock :=
  { state := State.StateEstablished,
    snd := { ISS := 100, UNA := 101, NXT := 101, WND := 1000, UP := 0, WL1 := 0, WL2 := 0 },
    rcv := { IRS := 300, NXT := 500, WND := 10, UP := 0 },
    pending := (0, 0) }

/-- The segment of spec §8 scenario 4: `{SEQ=501, LEN=1}`. -/
def sampleSeq501 : Segment :=
  { SEQ := 501, ACK := 0, DATALEN := 1, WND := 1000, Flags := 0 }

/-- An established connection with ten bytes in flight (`snd.UNA = 101`,
`snd.NXT = 111`) inside a send window of 1000. -/
def sampleInFlight : ControlBlock :=
  { sampleEstablished with snd := { sampleEstablished.snd with NXT := 111 } }

/-- An ACK from the peer that acknowledges nothing new and advertises a window
of 5. -/
def sampleShrinkWindow : Segment :=
  { SEQ := 301, ACK := 101, DATALEN := 0, WND := 5, Flags := FlagACK }

/-- An ACK of the peer of `sampleInFlight` that acknowledges four of the ten
bytes in flight (`ACK = 105`) and advertises a window of 2. -/
def samplePartialAck : Segment :=
  { SEQ := 301, ACK := 105, DATALEN := 0, WND := 2, Flags := FlagACK }

/-- An outgoing data segment of 995 bytes for `sampleInFlight`, which has ten
bytes in flight in a window of 1000. -/
def sampleData995 : Segment :=
  { SEQ := 111, ACK := 301, DATALEN := 995, WND := 1000, Flags := FlagACK ||| FlagPSH }

/-- The control block B of the handshake in SYN-RCVD, with SYN|ACK pending, and
a segment that carries the SYN of it only. -/
def sampleSynOnly : Segment :=
  { SEQ := 300, ACK := 0, DATALEN := 0, WND := 1000, Flags := FlagSYN }

/-! ## More of control_user.go: the flight size, and the invariants of spec §8 -/

/-- Go's subtraction of two `Size` values (unsigned, 32 bits): it wraps
around. -/
def Size.sub (a b : Size) : Size := (a + (2 ^ 32 - b % 2 ^ 32)) % 2 ^ 32

/-- Modelled from the spec: `hasIRS` is not in the sources.  The initial
receive sequence is known from SYN-RCVD on (spec §4.8; control_user.go:198:
"Returns 0 before StateSynRcvd"). -/
def ControlBlock.hasIRS (tcb : ControlBlock) : Bool := tcb.state.sinceSynRcvd

/-- Method `ControlBlock.MaxInFlightData` (control_user.go:199-205): the
control block after the call (the body assigns nothing) and the size
returned. -/
def ControlBlock.MaxInFlightData (tcb : ControlBlock) : ControlBlock × Size :=
  if !tcb.hasIRS then (tcb, 0)
  else
    let unacked := Sizeof tcb.snd.UNA tcb.snd.NXT
    (tcb, Size.sub (Size.sub tcb.snd.WND unacked) 1)

/-- The window bound of spec §8 (3): `snd.WND ≤ 2¹⁶` and `rcv.WND ≤ 2¹⁶`. -/
def ControlBlock.windowsOk (tcb : ControlBlock) : Prop :=
  tcb.snd.WND ≤ 2 ^ 16 ∧ tcb.rcv.WND ≤ 2 ^ 16

instance (tcb : ControlBlock) : Decidable tcb.windowsOk :=
  inferInstanceAs (Decidable (_ ∧ _))

/-- Well-formedness of the pending queue (spec §8 (5)): if slot 1 is non-empty
then slot 0 is non-empty. -/
def ControlBlock.pendingOk (tcb : ControlBlock) : Prop :=
  tcb.pending.2 ≠ 0 → tcb.pending.1 ≠ 0

instance (tcb : ControlBlock) : Decidable tcb.pendingOk :=
  inferInstanceAs (Decidable (_ → _))

/-- The control blocks that a sequence of public calls (`Open`, `Close`,
`Send`, `Recv`, `SetRecvWindow`) produces from a freshly created one; a call
that returns an error counts too, with the control block it leaves. -/
inductive Reachable (m : Methods) : ControlBlock → Prop
  | fresh : Reachable m ControlBlock.zero
  | open_ (tcb : ControlBlock) (iss : Value) (wnd : Size) (state : State) :
      Reachable m tcb → Reachable m (tcb.Open iss wnd state).1
  | close_ (tcb : ControlBlock) : Reachable m tcb → Reachable m tcb.Close.1
  | send (tcb : ControlBlock) (seg : Segment) :
      Reachable m tcb → Reachable m (ControlBlock.Send m tcb seg).1
  | recv (tcb tcb' : ControlBlock) (seg : Segment) (err : Option Err) :
      Reachable m tcb → ControlBlock.Recv m tcb seg = Outcome.returned tcb' err →
      Reachable m tcb'
  | setRecvWindow (tcb : ControlBlock) (wnd : Size) :
      Reachable m tcb → Reachable m (tcb.SetRecvWindow wnd)

/-- A segment without any flag, one byte long, as the LAST-ACK control block
`clB3` receives it. -/
def sampleNoFlagByte : Segment :=
  { SEQ := 102, ACK := 0, DATALEN := 1, WND := 1000, Flags := 0 }

/-- An ACK of the peer of `sampleEstablished` that closes the window. -/
def sampleZeroWindow : Segment :=
  { SEQ := 301, ACK := 101, DATALEN := 0, WND := 0, Flags := FlagACK }

/-! ## eth/dhcp/optnum_string.go -/

/-- The constant `_OptNum_name` (optnum_string.go:75). -/
def Dhcp._OptNum_name : String :=
  "WordAlignedSubnetMaskTimeOffsetRouterTimeServersNameServersDNSServersLogServersC" ++
  "ookieServersLPRServersImpressServersRLPServersHostNameBootFileSizeMeritDumpFileD" ++
  "omainNameSwapServerRootPathExtensionFileIPLayerForwardingSrcrouteenablerPolicyFi" ++
  "lterMaximumDGReassemblySizeDefaultIPTTLPathMTUAgingTimeoutMTUPlateauInterfaceMTU" ++
  "SizeAllSubnetsAreLocalBroadcastAddressPerformMaskDiscoveryProvideMasktoOthersPer" ++
  "formRouterDiscoveryRouterSolicitationAddressStaticRoutingTableTrailerEncapsulati" ++
  "onARPCacheTimeoutEthernetEncapsulationDefaultTCPTimetoLiveTCPKeepaliveIntervalTC" ++
  "PKeepaliveGarbageNISDomainNameNISServerAddressesNTPServersAddressesVendorSpecifi" ++
  "cInformationNetBIOSNameServerNetBIOSDatagramDistributionNetBIOSNodeTypeNetBIOSSc" ++
  "opeXWindowFontServerXWindowDisplayManagerRequestedIPaddressIPAddressLeaseTimeOpt" ++
  "ionOverloadMessageTypeServerIdentificationParameterRequestListMessageMaximumMess" ++
  "ageSizeRenewTimeValueRebindingTimeValueClientIdentifierClientIdentifier1"

/-- The table `_OptNum_index` (optnum_string.go:77). -/
def Dhcp._OptNum_index : List Nat :=
  [0, 11, 21, 31, 37, 48, 59, 69, 79, 92, 102, 116, 126, 134, 146, 159, 169, 179, 187, 200,
   217, 232, 244, 267, 279, 298, 308, 324, 342, 358, 378, 397, 419, 444, 462, 482, 497, 518,
   538, 558, 577, 590, 608, 627, 652, 669, 696, 711, 723, 740, 761, 779, 797, 811, 822, 842,
   862, 869, 887, 901, 919, 935, 952]

/-- The names of the constants `OptWordAligned = 0`, ..., `OptClientIdentifier1
= 61` without their prefix `Opt`, in the order of their values
(optnum_string.go:11-72). -/
def Dhcp.optNames : List String :=
  ["WordAligned", "SubnetMask", "TimeOffset", "Router", "TimeServers", "NameServers",
   "DNSServers", "LogServers", "CookieServers", "LPRServers", "ImpressServers", "RLPServers",
   "HostName", "BootFileSize", "MeritDumpFile", "DomainName", "SwapServer", "RootPath",
   "ExtensionFile", "IPLayerForwarding", "Srcrouteenabler", "PolicyFilter",
   "MaximumDGReassemblySize", "DefaultIPTTL", "PathMTUAgingTimeout", "MTUPlateau",
   "InterfaceMTUSize", "AllSubnetsAreLocal", "BroadcastAddress", "PerformMaskDiscovery",
   "ProvideMasktoOthers", "PerformRouterDiscovery", "RouterSolicitationAddress",
   "StaticRoutingTable", "TrailerEncapsulation", "ARPCacheTimeout", "EthernetEncapsulation",
   "DefaultTCPTimetoLive", "TCPKeepaliveInterval", "TCPKeepaliveGarbage", "NISDomainName",
   "NISServerAddresses", "NTPServersAddresses", "VendorSpecificInformation",
   "NetBIOSNameServer", "NetBIOSDatagramDistribution", "NetBIOSNodeType", "NetBIOSScope",
   "XWindowFontServer", "XWindowDisplayManager", "RequestedIPaddress", "IPAddressLeaseTime",
   "OptionOverload", "MessageType", "ServerIdentification", "ParameterRequestList", "Message",
   "MaximumMessageSize", "RenewTimeValue", "RebindingTimeValue", "ClientIdentifier",
   "ClientIdentifier1"]

/-- Go's `s[a:b]` on a string of ASCII bytes; `none` when the bounds are out of
range, where Go panics. -/
def Dhcp.slice (s : String) (a b : Nat) : Option String :=
  if a ≤ b ∧ b ≤ s.length then some (String.mk ((s.data.drop a).take (b - a))) else none

/-- Method `OptNum.String` (optnum_string.go:79-84).  `OptNum` is an unsigned
integer type (its declaration is not in the sources), so
`strconv.FormatInt(int64(i), 10)` is the decimal numeral of `i`.  The result is
`none` when an index or a slice is out of range, where Go panics. -/
def Dhcp.OptNum.String (i : Nat) : Option String :=
  if i ≥ Dhcp._OptNum_index.length - 1 then
    some ("OptNum(" ++ Nat.repr i ++ ")")
  else
    match Dhcp._OptNum_index[i]?, Dhcp._OptNum_index[i + 1]? with
    | some a, some b => Dhcp.slice Dhcp._OptNum_name a b
    | _, _ => none

/-! ## Lemmas -/

/-- Bit `i` of `Flags.clear flags mask` is set exactly when it is set in
`flags` and not in `mask`: `Flags.clear` is Go's `&^`. -/
theorem Flags.clear_testBit (flags mask : Flags) (i : Nat) :
    (Flags.clear flags mask).testBit i = (flags.testBit i && !mask.testBit i) := by
  simp only [Flags.clear, Nat.testBit_xor, Nat.testBit_and]
  cases flags.testBit i <;> cases mask.testBit i <;> rfl

theorem specMethods_failureAtomic : specMethods.FailureAtomic := by
  intro tcb seg
  refine ⟨?_, ?_, ?_, ?_, ?_, ?_⟩
  · simp only [specMethods, ControlBlock.rcvListen]
    split <;> simp
  · simp only [specMethods, ControlBlock.rcvSynSent]
    split_ifs <;> simp
  · simp only [specMethods, ControlBlock.rcvSynRcvd]
    split <;> simp
  · simp only [specMethods, ControlBlock.rcvEstablished]
    split <;> simp
  · simp only [specMethods, ControlBlock.rcvFinWait1]
    split_ifs <;> simp
  · simp only [specMethods, ControlBlock.rcvFinWait2]
    split <;> simp

/-- A handler result with an error comes from one of the six handlers, and a
failure-atomic one has not touched the control block. -/
theorem rcvDispatch_error_unchanged (m : Methods) (hm : m.FailureAtomic)
    (tcb : ControlBlock) (seg : Segment) (hd : Handled) (e : Err)
    (h : tcb.rcvDispatch m seg = some hd) (he : hd.err = some e) : hd.tcb = tcb := by
  obtain ⟨h1, h2, h3, h4, h5, h6⟩ := hm tcb seg
  unfold ControlBlock.rcvDispatch at h
  cases hs : tcb.state <;> simp only [hs, Option.some.injEq, reduceCtorEq] at h <;> subst h
  · exact h1 (by simp [he])
  · exact h2 (by simp [he])
  · exact h3 (by simp [he])
  · exact h4 (by simp [he])
  · exact h5 (by simp [he])
  · exact h6 (by simp [he])
  · simp at he
  · simp at he

/-- Guards of `Open`: it returns nil only when its three guards pass. -/
theorem Open_nil_guards (tcb : ControlBlock) (iss : Value) (wnd : Size) (target : State)
    (h : (tcb.Open iss wnd target).2 = none) :
    (tcb.state = State.StateClosed ∨ tcb.state = State.StateListen) ∧
    (target = State.StateListen ∨ target = State.StateSynSent) ∧ wnd ≤ MaxUint16 := by
  unfold ControlBlock.Open at h
  by_cases h1 : tcb.state ≠ State.StateClosed ∧ tcb.state ≠ State.StateListen
  · simp [h1] at h
  · by_cases h2 : target ≠ State.StateListen ∧ target ≠ State.StateSynSent
    · simp [h1, h2] at h
    · by_cases h3 : wnd > MaxUint16
      · simp [h1, h2, h3] at h
      · refine ⟨?_, ?_, Nat.not_lt.mp h3⟩
        · by_contra hc
          exact h1 ⟨fun a => hc (Or.inl a), fun a => hc (Or.inr a)⟩
        · by_contra hc
          exact h2 ⟨fun a => hc (Or.inl a), fun a => hc (Or.inr a)⟩

/-- What `Open` leaves when its three guards pass. -/
theorem Open_valid (tcb : ControlBlock) (iss : Value) (wnd : Size) (target : State)
    (hs : tcb.state = State.StateClosed ∨ tcb.state = State.StateListen)
    (ht : target = State.StateListen ∨ target = State.StateSynSent)
    (hw : wnd ≤ MaxUint16) :
    (tcb.Open iss wnd target).2 = none ∧
    (tcb.Open iss wnd target).1.state = target ∧
    (tcb.Open iss wnd target).1.pending
      = (if target = State.StateSynSent then (FlagSYN, 0) else (0, 0)) ∧
    (tcb.Open iss wnd target).1.snd.ISS = iss ∧
    (tcb.Open iss wnd target).1.rcv.WND = wnd ∧
    (tcb.Open iss wnd target).1.rcv.NXT = 0 := by
  have h1 : ¬ (tcb.state ≠ State.StateClosed ∧ tcb.state ≠ State.StateListen) := by
    rintro ⟨a, b⟩
    rcases hs with h | h
    · exact a h
    · exact b h
  have h2 : ¬ (target ≠ State.StateListen ∧ target ≠ State.StateSynSent) := by
    rintro ⟨a, b⟩
    rcases ht with h | h
    · exact a h
    · exact b h
  have h3 : ¬ wnd > MaxUint16 := Nat.not_lt.mpr hw
  unfold ControlBlock.Open
  simp only [h1, h2, h3, if_false]
  refine ⟨trivial, ?_, ?_, ?_, ?_, ?_⟩ <;> split <;>
    simp [ControlBlock.resetSnd, ControlBlock.resetRcv]

/-- Result of `Open` with a window above `math.MaxUint16` when the two state guards
pass. -/
theorem Open_too_large (tcb : ControlBlock) (iss : Value) (wnd : Size) (target : State)
    (hs : tcb.state = State.StateClosed ∨ tcb.state = State.StateListen)
    (ht : target = State.StateListen ∨ target = State.StateSynSent)
    (hw : wnd > MaxUint16) :
    tcb.Open iss wnd target = (tcb, some Err.errWindowTooLarge) := by
  have h1 : ¬ (tcb.state ≠ State.StateClosed ∧ tcb.state ≠ State.StateListen) := by
    rintro ⟨a, b⟩
    rcases hs with h | h
    · exact a h
    · exact b h
  have h2 : ¬ (target ≠ State.StateListen ∧ target ≠ State.StateSynSent) := by
    rintro ⟨a, b⟩
    rcases ht with h | h
    · exact a h
    · exact b h
  unfold ControlBlock.Open
  simp only [h1, h2, hw, if_false, if_true]

/-- OR-ing a mask in sets all of its bits. -/
theorem Flags.or_and_self (x b : Flags) : (x ||| b) &&& b = b := by
  apply Nat.eq_of_testBit_eq
  intro i
  simp only [Nat.testBit_and, Nat.testBit_or]
  cases x.testBit i <;> cases b.testBit i <;> rfl

/-- A flag set that contains `finack` has the FIN bit and the ACK bit. -/
theorem Flags.hasAny_of_finack (x : Flags) :
    Flags.HasAny (x ||| finack) FlagFIN = true ∧ Flags.HasAny (x ||| finack) FlagACK = true := by
  have h1 : (x ||| finack) &&& FlagFIN = FlagFIN := by
    apply Nat.eq_of_testBit_eq
    intro i
    simp only [finack, Nat.testBit_and, Nat.testBit_or]
    cases x.testBit i <;> cases FlagFIN.testBit i <;> cases FlagACK.testBit i <;> rfl
  have h2 : (x ||| finack) &&& FlagACK = FlagACK := by
    apply Nat.eq_of_testBit_eq
    intro i
    simp only [finack, Nat.testBit_and, Nat.testBit_or]
    cases x.testBit i <;> cases FlagFIN.testBit i <;> cases FlagACK.testBit i <;> rfl
  simp only [Flags.HasAny, h1, h2]
  decide

/-- The default branch of the switch in `Recv`: in CLOSED, CLOSING and
TIME-WAIT a segment that the validator accepts makes `Recv` panic. -/
theorem Recv_default_branch (m : Methods) (tcb : ControlBlock) (seg : Segment)
    (hs : tcb.state = State.StateClosed ∨ tcb.state = State.StateClosing ∨
      tcb.state = State.StateTimeWait)
    (hv : m.validateIncomingSegment tcb seg = none) :
    ControlBlock.Recv m tcb seg = Outcome.panicked tcb := by
  rcases hs with hs | hs | hs <;> simp [ControlBlock.Recv, ControlBlock.rcvDispatch, hv, hs]

/-- The form of an accepted `Recv`: the switch gave a result without error and
`Recv` committed it. -/
theorem Recv_nil_form (m : Methods) (tcb tcb' : ControlBlock) (seg : Segment)
    (h : ControlBlock.Recv m tcb seg = Outcome.returned tcb' none) :
    ∃ hd : Handled, tcb.rcvDispatch m seg = some hd ∧ hd.err = none ∧
      tcb' = ControlBlock.recvCommit hd seg := by
  unfold ControlBlock.Recv at h
  cases hv : m.validateIncomingSegment tcb seg with
  | some e => simp [hv] at h
  | none =>
    simp only [hv] at h
    cases hdisp : tcb.rcvDispatch m seg with
    | none => simp [hdisp] at h
    | some hd =>
      simp only [hdisp] at h
      cases he : hd.err with
      | some e => simp [he] at h
      | none =>
        simp only [he, Outcome.returned.injEq, and_true] at h
        refine ⟨hd, rfl, he, ?_⟩
        subst h
        unfold ControlBlock.recvCommit
        split <;> rfl

/-- Moving `nxt` forward by `len` lengthens the span from `una` by at most
`len`. -/
theorem Sizeof_forward_le (una nxt : Value) (len : Size) :
    Sizeof una ((nxt + len) % 2 ^ 32) ≤ Sizeof una nxt + len := by
  show (((nxt + len) % 2 ^ 32 + (2 ^ 32 - una % 2 ^ 32)) % 2 ^ 32 : Nat)
    ≤ (nxt + (2 ^ 32 - una % 2 ^ 32)) % 2 ^ 32 + len
  omega

/-- An accepted `Recv` commits the result of the switch. -/
theorem Recv_commit (m : Methods) (tcb : ControlBlock) (seg : Segment) (hd : Handled)
    (hv : m.validateIncomingSegment tcb seg = none)
    (hdisp : tcb.rcvDispatch m seg = some hd) (he : hd.err = none) :
    ControlBlock.Recv m tcb seg = Outcome.returned (ControlBlock.recvCommit hd seg) none := by
  simp only [ControlBlock.Recv, hv, hdisp, he, ControlBlock.recvCommit]
  split <;> rfl

/-- Errors of `Open`: whenever `Open` returns an error the control block is as
it was. -/
theorem Open_error_unchanged (tcb : ControlBlock) (iss : Value) (wnd : Size) (state : State)
    (e : Err) (h : (tcb.Open iss wnd state).2 = some e) : (tcb.Open iss wnd state).1 = tcb := by
  unfold ControlBlock.Open at h ⊢
  by_cases h1 : tcb.state ≠ State.StateClosed ∧ tcb.state ≠ State.StateListen
  · simp [h1]
  · by_cases h2 : state ≠ State.StateListen ∧ state ≠ State.StateSynSent
    · simp [h1, h2]
    · by_cases h3 : wnd > MaxUint16
      · simp [h1, h2, h3]
      · simp [h1, h2, h3] at h

/-- The send window that a successful `Open` leaves: the one byte of
`resetSnd(iss, 1)`. -/
theorem Open_valid_sndWND (tcb : ControlBlock) (iss : Value) (wnd : Size) (target : State)
    (hs : tcb.state = State.StateClosed ∨ tcb.state = State.StateListen)
    (ht : target = State.StateListen ∨ target = State.StateSynSent)
    (hw : wnd ≤ MaxUint16) : (tcb.Open iss wnd target).1.snd.WND = 1 := by
  have h1 : ¬ (tcb.state ≠ State.StateClosed ∧ tcb.state ≠ State.StateListen) := by
    rintro ⟨a, b⟩
    rcases hs with h | h
    · exact a h
    · exact b h
  have h2 : ¬ (target ≠ State.StateListen ∧ target ≠ State.StateSynSent) := by
    rintro ⟨a, b⟩
    rcases ht with h | h
    · exact a h
    · exact b h
  have h3 : ¬ wnd > MaxUint16 := Nat.not_lt.mpr hw
  unfold ControlBlock.Open
  simp only [h1, h2, h3, if_false]
  split <;> simp [ControlBlock.resetSnd, ControlBlock.resetRcv]

/-- A segment that the spec-modelled incoming validator accepts has a window
of at most `2 ^ 16`. -/
theorem specMethods_incoming_window (tcb : ControlBlock) (seg : Segment)
    (h : specMethods.validateIncomingSegment tcb seg = none) : seg.WND ≤ 2 ^ 16 := by
  by_contra hw
  have hw' : seg.WND > 2 ^ 16 := Nat.not_le.mp hw
  have : specMethods.validateIncomingSegment tcb seg = some Err.errWindowOverflow := by
    show ControlBlock.validateIncomingSegment tcb seg = _
    unfold ControlBlock.validateIncomingSegment
    simp only [if_pos hw']
  rw [this] at h
  cases h

/-- A segment that the spec-modelled outgoing validator accepts has a window
of at most `2 ^ 16`. -/
theorem specMethods_outgoing_window (tcb : ControlBlock) (seg : Segment)
    (h : specMethods.validateOutgoingSegment tcb seg = none) : seg.WND ≤ 2 ^ 16 := by
  by_contra hw
  have hw' : seg.WND > 2 ^ 16 := Nat.not_le.mp hw
  have : specMethods.validateOutgoingSegment tcb seg = some Err.errWindowOverflow := by
    show ControlBlock.validateOutgoingSegment tcb seg = _
    unfold ControlBlock.validateOutgoingSegment
    simp only [if_pos hw']
  rw [this] at h
  cases h

/-- The switch of `Recv`, with the spec-modelled handlers, leaves the receive
window as it was or sets it to 0. -/
theorem specMethods_dispatch_rcvWND (tcb : ControlBlock) (seg : Segment) (hd : Handled)
    (h : tcb.rcvDispatch specMethods seg = some hd) :
    hd.tcb.rcv.WND = tcb.rcv.WND ∨ hd.tcb.rcv.WND = 0 := by
  unfold ControlBlock.rcvDispatch at h
  cases hs : tcb.state <;> simp only [hs, Option.some.injEq, reduceCtorEq] at h <;> subst h
  · simp only [specMethods, ControlBlock.rcvListen]
    split <;> simp [ControlBlock.resetRcv]
  · simp only [specMethods, ControlBlock.rcvSynSent]
    split_ifs <;> simp [ControlBlock.resetRcv]
  · simp only [specMethods, ControlBlock.rcvSynRcvd]
    split <;> simp
  · simp only [specMethods, ControlBlock.rcvEstablished]
    split <;> simp
  · simp only [specMethods, ControlBlock.rcvFinWait1]
    split_ifs <;> simp
  · simp only [specMethods, ControlBlock.rcvFinWait2]
    split <;> simp
  · simp
  · split <;> simp [ControlBlock.close]

/-- The window bound of spec §8 (3) under the public operations other than
`SetRecvWindow`, with the spec-modelled validators and handlers: it holds for a
fresh control block and is preserved by `Open`, `Close`, `Send` and `Recv`,
whether they return an error or not; `SetRecvWindow(wnd)` preserves it exactly
when `wnd ≤ 2 ^ 16`. -/
theorem windowsOk_operations (tcb : ControlBlock) (h : tcb.windowsOk) :
    ControlBlock.zero.windowsOk ∧
    (∀ (iss : Value) (wnd : Size) (state : State), (tcb.Open iss wnd state).1.windowsOk) ∧
    tcb.Close.1.windowsOk ∧
    (∀ seg : Segment, (ControlBlock.Send specMethods tcb seg).1.windowsOk) ∧
    (∀ seg : Segment, (ControlBlock.Recv specMethods tcb seg).tcb.windowsOk) ∧
    (∀ wnd : Size, (tcb.SetRecvWindow wnd).windowsOk ↔ wnd ≤ 2 ^ 16) := by
  obtain ⟨h1, h2⟩ := h
  refine ⟨by decide, ?_, ?_, ?_, ?_, ?_⟩
  · intro iss wnd state
    cases he : (tcb.Open iss wnd state).2 with
    | none =>
      obtain ⟨hs, ht, hw⟩ := Open_nil_guards tcb iss wnd state he
      have hv := Open_valid tcb iss wnd state hs ht hw
      have hsnd := Open_valid_sndWND tcb iss wnd state hs ht hw
      refine ⟨?_, ?_⟩
      · rw [hsnd]; decide
      · rw [hv.2.2.2.2.1]
        exact Nat.le_trans hw (by decide)
    | some e =>
      rw [Open_error_unchanged tcb iss wnd state e he]
      exact ⟨h1, h2⟩
  · unfold ControlBlock.Close
    cases hs : tcb.state <;>
      simp only [ControlBlock.windowsOk, ControlBlock.close] <;>
      first
      | exact ⟨h1, h2⟩
      | exact ⟨h1, Nat.zero_le _⟩
  · intro seg
    cases hv : specMethods.validateOutgoingSegment tcb seg with
    | some e => simp only [ControlBlock.Send, hv]; exact ⟨h1, h2⟩
    | none =>
      have hw := specMethods_outgoing_window tcb seg hv
      simp only [ControlBlock.Send, hv, ControlBlock.windowsOk]
      exact ⟨h1, hw⟩
  · intro seg
    cases hv : specMethods.validateIncomingSegment tcb seg with
    | some e => simp only [ControlBlock.Recv, hv, Outcome.tcb]; exact ⟨h1, h2⟩
    | none =>
      have hw := specMethods_incoming_window tcb seg hv
      cases hdisp : tcb.rcvDispatch specMethods seg with
      | none => simp only [ControlBlock.Recv, hv, hdisp, Outcome.tcb]; exact ⟨h1, h2⟩
      | some hd =>
        have hr := specMethods_dispatch_rcvWND tcb seg hd hdisp
        have hr' : hd.tcb.rcv.WND ≤ 2 ^ 16 := by
          rcases hr with hr | hr
          · rw [hr]; exact h2
          · rw [hr]; exact Nat.zero_le _
        cases he : hd.err with
        | some e =>
          have hu := rcvDispatch_error_unchanged specMethods specMethods_failureAtomic
            tcb seg hd e hdisp he
          simp only [ControlBlock.Recv, hv, hdisp, he, Outcome.tcb, hu]
          exact ⟨h1, h2⟩
        | none =>
          rw [Recv_commit specMethods tcb seg hd hv hdisp he]
          exact ⟨hw, hr'⟩
  · intro wnd
    simp only [ControlBlock.SetRecvWindow, ControlBlock.windowsOk]
    exact ⟨fun hh => hh.2, fun hh => ⟨h1, hh⟩⟩

/-- OR-ing into a non-empty flag set leaves it non-empty. -/
theorem Flags.or_ne_zero_left (x b : Flags) (hx : x ≠ 0) : x ||| b ≠ 0 := by
  intro h
  apply hx
  have h1 : (x ||| b) &&& x = x := by
    apply Nat.eq_of_testBit_eq
    intro i
    simp only [Nat.testBit_and, Nat.testBit_or]
    cases x.testBit i <;> cases b.testBit i <;> rfl
  rw [h] at h1
  rw [← h1]
  exact Nat.zero_and x

/-- OR-ing a non-empty mask in gives a non-empty flag set. -/
theorem Flags.or_ne_zero_right (x b : Flags) (hb : b ≠ 0) : x ||| b ≠ 0 := by
  intro h
  apply hb
  have h1 := Flags.or_and_self x b
  rw [h] at h1
  rw [← h1]
  exact Nat.zero_and b

set_option maxRecDepth 100000 in
/-- The slices of `_OptNum_name` that `OptNum.String` takes for 0, ..., 61 are
the names of the 62 constants, in order. -/
theorem Dhcp.String_table :
    (List.range 62).map Dhcp.OptNum.String = Dhcp.optNames.map some := by
  decide

/-- Emptiness of `Flags.clear flags mask`: it is empty exactly when every bit
of `flags` is in `mask`. -/
theorem Flags.clear_eq_zero_iff (flags mask : Flags) :
    Flags.clear flags mask = 0 ↔
      ∀ i : Nat, flags.testBit i = true → mask.testBit i = true := by
  constructor
  · intro h0 i hi
    have hb := Flags.clear_testBit flags mask i
    rw [h0, Nat.zero_testBit, hi] at hb
    cases hsb : mask.testBit i
    · rw [hsb] at hb; cases hb
    · rfl
  · intro hall
    apply Nat.eq_of_testBit_eq
    intro i
    rw [Flags.clear_testBit, Nat.zero_testBit]
    cases hp : flags.testBit i
    · rfl
    · rw [hall i hp]; rfl

/-- A call of `Recv` that returns nil went through the validator. -/
theorem Recv_nil_validated (m : Methods) (tcb tcb' : ControlBlock) (seg : Segment)
    (h : ControlBlock.Recv m tcb seg = Outcome.returned tcb' none) :
    m.validateIncomingSegment tcb seg = none := by
  cases hv : m.validateIncomingSegment tcb seg with
  | none => rfl
  | some e => simp [ControlBlock.Recv, hv] at h

/-- The switch of `Recv`, with the spec-modelled handlers, leaves the send
space alone. -/
theorem specMethods_dispatch_snd (tcb : ControlBlock) (seg : Segment) (hd : Handled)
    (h : tcb.rcvDispatch specMethods seg = some hd) : hd.tcb.snd = tcb.snd := by
  unfold ControlBlock.rcvDispatch at h
  cases hs : tcb.state <;> simp only [hs, Option.some.injEq, reduceCtorEq] at h <;> subst h
  · simp only [specMethods, ControlBlock.rcvListen]
    split <;> simp [ControlBlock.resetRcv]
  · simp only [specMethods, ControlBlock.rcvSynSent]
    split_ifs <;> simp [ControlBlock.resetRcv]
  · simp only [specMethods, ControlBlock.rcvSynRcvd]
    split <;> simp
  · simp only [specMethods, ControlBlock.rcvEstablished]
    split <;> simp
  · simp only [specMethods, ControlBlock.rcvFinWait1]
    split_ifs <;> simp
  · simp only [specMethods, ControlBlock.rcvFinWait2]
    split <;> simp
  · simp
  · split <;> simp [ControlBlock.close]

/-- The acknowledgment number of a segment that the spec-modelled incoming
validator accepts in a state at or after SYN-RCVD lies in
`[snd.UNA, snd.NXT]`. -/
theorem specMethods_incoming_ack (tcb : ControlBlock) (seg : Segment)
    (hv : specMethods.validateIncomingSegment tcb seg = none)
    (hs : tcb.state.sinceSynRcvd = true) (hack : seg.Flags.HasAny FlagACK = true) :
    Sizeof tcb.snd.UNA seg.ACK ≤ Sizeof tcb.snd.UNA tcb.snd.NXT := by
  by_contra hc
  have hgt : Sizeof tcb.snd.UNA seg.ACK > Sizeof tcb.snd.UNA tcb.snd.NXT := Nat.not_le.mp hc
  have hv' : ControlBlock.validateIncomingSegment tcb seg = none := hv
  unfold ControlBlock.validateIncomingSegment at hv'
  simp only [hs, hack, hgt, Bool.true_and, Bool.and_self, decide_True, if_true] at hv'
  split_ifs at hv'

/-- A segment that the spec-modelled incoming validator accepts in LISTEN is a
pure SYN. -/
theorem specMethods_incoming_listen (tcb : ControlBlock) (seg : Segment)
    (hv : specMethods.validateIncomingSegment tcb seg = none)
    (hs : tcb.state = State.StateListen) : seg.Flags = FlagSYN := by
  by_contra hc
  have hv' : ControlBlock.validateIncomingSegment tcb seg = none := hv
  unfold ControlBlock.validateIncomingSegment at hv'
  simp only [hs, State.sinceSynRcvd, hc, if_false] at hv'
  split_ifs at hv'

/-- An acknowledgment inside `[una, nxt]` does not lengthen the span up to
`nxt`. -/
theorem Sizeof_ack_le (una ack nxt : Value)
    (h : Sizeof una ack ≤ Sizeof una nxt) : Sizeof ack nxt ≤ Sizeof una nxt := by
  have h' : ((ack + (2 ^ 32 - una % 2 ^ 32)) % 2 ^ 32 : Nat)
      ≤ (nxt + (2 ^ 32 - una % 2 ^ 32)) % 2 ^ 32 := h
  show ((nxt + (2 ^ 32 - ack % 2 ^ 32)) % 2 ^ 32 : Nat)
    ≤ (nxt + (2 ^ 32 - una % 2 ^ 32)) % 2 ^ 32
  omega

/-! ## Theorems -/

/-- C1: `Send` is atomic on rejection.  Whatever the outgoing validator is, if
it returns an error for a segment then `Send` returns that same error and the
control block (state, snd, rcv and both pending slots) is exactly what it was
before the call. -/
theorem Send_rejected_unchanged (m : Methods) (tcb : ControlBlock) (seg : Segment) (e : Err)
    (h : m.validateOutgoingSegment tcb seg = some e) :
    ControlBlock.Send m tcb seg = (tcb, some e) := by
  simp [ControlBlock.Send, h]

theorem Send_rejected_unchanged_witness :
    specMethods.validateOutgoingSegment sampleEstablished { sampleFinAck with WND := 70000 }
        = some Err.errWindowOverflow ∧
      ControlBlock.Send specMethods sampleEstablished { sampleFinAck with WND := 70000 }
        = (sampleEstablished, some Err.errWindowOverflow) :=
  ⟨by decide, Send_rejected_unchanged specMethods sampleEstablished _ _ (by decide)⟩

/-- C3: the state after an accepted `Send`.  From SYN-RCVD or ESTABLISHED it is
FIN-WAIT-1 if the segment carries FIN and unchanged otherwise; from CLOSING it
is TIME-WAIT if the segment carries ACK and unchanged otherwise; from
CLOSE-WAIT it is LAST-ACK if the segment carries FIN and CLOSE-WAIT otherwise;
from CLOSED, LISTEN, SYN-SENT, FIN-WAIT-1, FIN-WAIT-2, LAST-ACK and TIME-WAIT
`Send` does not change the state.  `Send` returns nil. -/
theorem Send_accepted_state (m : Methods) (tcb : ControlBlock) (seg : Segment)
    (h : m.validateOutgoingSegment tcb seg = none) :
    (ControlBlock.Send m tcb seg).2 = none ∧
    ((tcb.state = State.StateSynRcvd ∨ tcb.state = State.StateEstablished) →
      (ControlBlock.Send m tcb seg).1.State =
        if seg.Flags.HasAny FlagFIN then State.StateFinWait1 else tcb.state) ∧
    (tcb.state = State.StateClosing →
      (ControlBlock.Send m tcb seg).1.State =
        if seg.Flags.HasAny FlagACK then State.StateTimeWait else State.StateClosing) ∧
    (tcb.state = State.StateCloseWait →
      (ControlBlock.Send m tcb seg).1.State =
        if seg.Flags.HasAny FlagFIN then State.StateLastAck else State.StateCloseWait) ∧
    ((tcb.state = State.StateClosed ∨ tcb.state = State.StateListen ∨
        tcb.state = State.StateSynSent ∨ tcb.state = State.StateFinWait1 ∨
        tcb.state = State.StateFinWait2 ∨ tcb.state = State.StateLastAck ∨
        tcb.state = State.StateTimeWait) →
      (ControlBlock.Send m tcb seg).1.State = tcb.state) := by
  simp only [ControlBlock.Send, h, ControlBlock.State]
  refine ⟨trivial, ?_, ?_, ?_, ?_⟩
  · rintro (hs | hs) <;> simp only [hs]
  · intro hs
    simp only [hs]
  · intro hs
    simp only [hs]
    cases seg.Flags.HasAny FlagFIN <;> cases seg.Flags.HasAny FlagACK <;> rfl
  · rintro (hs | hs | hs | hs | hs | hs | hs) <;> simp only [hs]

theorem Send_accepted_state_witness :
    specMethods.validateOutgoingSegment sampleEstablished.Close.1 sampleFinAck = none ∧
      (ControlBlock.Send specMethods sampleEstablished.Close.1 sampleFinAck).1.State
        = State.StateFinWait1 :=
  ⟨by decide,
    ((Send_accepted_state specMethods sampleEstablished.Close.1 sampleFinAck (by decide)).2.1
      (Or.inr (by decide))).trans (by decide)⟩

/-- C4: what an accepted `Recv` leaves.  When `Recv` returns nil, the switch on
the state produced a result `hd` without error (the result of the handler of
the state; in CLOSE-WAIT and LAST-ACK, where there is no handler, its pending
flags are empty), and afterwards `snd.WND` is `seg.WND`, `snd.UNA` is
`seg.ACK` if the segment carries ACK and the value the handler left otherwise,
`rcv.NXT` is the value the handler left plus `seg.LEN` modulo `2 ^ 32`, and
pending slot 0 is exactly the flags the handler returned. -/
theorem Recv_accepted_updates (m : Methods) (tcb tcb' : ControlBlock) (seg : Segment)
    (h : ControlBlock.Recv m tcb seg = Outcome.returned tcb' none) :
    ∃ hd : Handled, tcb.rcvDispatch m seg = some hd ∧ hd.err = none ∧
      (tcb.state = State.StateListen → hd = m.rcvListen tcb seg) ∧
      (tcb.state = State.StateSynSent → hd = m.rcvSynSent tcb seg) ∧
      (tcb.state = State.StateSynRcvd → hd = m.rcvSynRcvd tcb seg) ∧
      (tcb.state = State.StateEstablished → hd = m.rcvEstablished tcb seg) ∧
      (tcb.state = State.StateFinWait1 → hd = m.rcvFinWait1 tcb seg) ∧
      (tcb.state = State.StateFinWait2 → hd = m.rcvFinWait2 tcb seg) ∧
      ((tcb.state = State.StateCloseWait ∨ tcb.state = State.StateLastAck) →
        hd.pending = 0 ∧ tcb'.pending.1 = 0) ∧
      tcb'.snd.WND = seg.WND ∧
      tcb'.snd.UNA = (if seg.Flags.HasAny FlagACK then seg.ACK else hd.tcb.snd.UNA) ∧
      tcb'.rcv.NXT = (hd.tcb.rcv.NXT + seg.LEN) % 2 ^ 32 ∧
      tcb'.pending.1 = hd.pending := by
  unfold ControlBlock.Recv at h
  cases hv : m.validateIncomingSegment tcb seg with
  | some e => simp [hv] at h
  | none =>
    simp only [hv] at h
    cases hdisp : tcb.rcvDispatch m seg with
    | none => simp [hdisp] at h
    | some hd =>
      simp only [hdisp] at h
      cases he : hd.err with
      | some e => simp [he] at h
      | none =>
        simp only [he, Outcome.returned.injEq, and_true] at h
        refine ⟨hd, rfl, he, ?_, ?_, ?_, ?_, ?_, ?_, ?_, ?_, ?_, ?_, ?_⟩
        · intro hs; simp only [ControlBlock.rcvDispatch, hs] at hdisp; exact (Option.some.inj hdisp).symm
        · intro hs; simp only [ControlBlock.rcvDispatch, hs] at hdisp; exact (Option.some.inj hdisp).symm
        · intro hs; simp only [ControlBlock.rcvDispatch, hs] at hdisp; exact (Option.some.inj hdisp).symm
        · intro hs; simp only [ControlBlock.rcvDispatch, hs] at hdisp; exact (Option.some.inj hdisp).symm
        · intro hs; simp only [ControlBlock.rcvDispatch, hs] at hdisp; exact (Option.some.inj hdisp).symm
        · intro hs; simp only [ControlBlock.rcvDispatch, hs] at hdisp; exact (Option.some.inj hdisp).symm
        · have hp : tcb'.pending.1 = hd.pending := by
            subst h; split <;> rfl
          rintro (hs | hs) <;> simp only [ControlBlock.rcvDispatch, hs] at hdisp <;>
            obtain rfl := Option.some.inj hdisp <;> exact ⟨rfl, hp⟩
        · subst h; split <;> rfl
        · subst h; split <;> simp
        · subst h; split <;> rfl
        · subst h; split <;> rfl

theorem Recv_accepted_updates_witness :
    ControlBlock.Recv specMethods sampleEstablished samplePeerFinAck
        = Outcome.returned
            { sampleEstablished with
              state := State.StateCloseWait,
              rcv := { sampleEstablished.rcv with NXT := 302 },
              pending := (FlagACK, 0) } none ∧
      ∃ hd : Handled, sampleEstablished.rcvDispatch specMethods samplePeerFinAck = some hd ∧
        hd.pending = FlagACK ∧ hd.tcb.rcv.NXT = 301 :=
  ⟨by decide,
    (Recv_accepted_updates specMethods sampleEstablished _ samplePeerFinAck
      (by decide : ControlBlock.Recv specMethods sampleEstablished samplePeerFinAck
        = Outcome.returned
            { sampleEstablished with
              state := State.StateCloseWait,
              rcv := { sampleEstablished.rcv with NXT := 302 },
              pending := (FlagACK, 0) } none)).elim
      (fun hd hh => ⟨hd, hh.1, hh.2.2.2.2.2.2.2.2.2.2.2.2.symm.trans (by decide),
        by
          have h3 := hh.2.2.2.2.2.1 rfl
          rw [h3]; decide⟩)⟩

/-- C5: the spaces after an accepted `Send`.  `snd.NXT` becomes the old
`snd.NXT` plus `seg.LEN` modulo `2 ^ 32`, where `LEN` is `DATALEN` plus one for
SYN and one for FIN; `rcv.WND` becomes `seg.WND`; `snd.UNA`, `snd.WND`,
`snd.ISS`, `rcv.NXT` and `rcv.IRS` are unchanged. -/
theorem Send_accepted_spaces (m : Methods) (tcb : ControlBlock) (seg : Segment)
    (h : m.validateOutgoingSegment tcb seg = none) :
    (ControlBlock.Send m tcb seg).1.snd.NXT = (tcb.snd.NXT + seg.LEN) % 2 ^ 32 ∧
    (ControlBlock.Send m tcb seg).1.snd.NXT =
      (tcb.snd.NXT + (seg.DATALEN + (if seg.Flags.HasAny FlagSYN then 1 else 0)
        + (if seg.Flags.HasAny FlagFIN then 1 else 0))) % 2 ^ 32 ∧
    (ControlBlock.Send m tcb seg).1.rcv.WND = seg.WND ∧
    (ControlBlock.Send m tcb seg).1.snd.UNA = tcb.snd.UNA ∧
    (ControlBlock.Send m tcb seg).1.snd.WND = tcb.snd.WND ∧
    (ControlBlock.Send m tcb seg).1.snd.ISS = tcb.snd.ISS ∧
    (ControlBlock.Send m tcb seg).1.rcv.NXT = tcb.rcv.NXT ∧
    (ControlBlock.Send m tcb seg).1.rcv.IRS = tcb.rcv.IRS := by
  simp [ControlBlock.Send, h, Value.UpdateForward, Segment.LEN]

theorem Send_accepted_spaces_witness :
    specMethods.validateOutgoingSegment sampleEstablished.Close.1 sampleFinAck = none ∧
      sampleFinAck.LEN = 1 ∧
      (ControlBlock.Send specMethods sampleEstablished.Close.1 sampleFinAck).1.snd.NXT = 102 :=
  ⟨by decide, by decide,
    (Send_accepted_spaces specMethods sampleEstablished.Close.1 sampleFinAck
      (by decide)).1.trans (by decide)⟩

/-- C6: the errors of `Open`.  `Open` returns `errTCBNotClosed` exactly when
the current state is neither CLOSED nor LISTEN, whatever the arguments; in
CLOSED or LISTEN it returns `errInvalidState` exactly when the target is
neither LISTEN nor SYN-SENT, whatever the window; and whenever `Open` returns
an error the control block is unchanged. -/
theorem Open_errors (tcb : ControlBlock) (iss : Value) (wnd : Size) (target : State) :
    ((tcb.Open iss wnd target).2 = some Err.errTCBNotClosed ↔
      (tcb.state ≠ State.StateClosed ∧ tcb.state ≠ State.StateListen)) ∧
    ((tcb.state = State.StateClosed ∨ tcb.state = State.StateListen) →
      ((tcb.Open iss wnd target).2 = some Err.errInvalidState ↔
        (target ≠ State.StateListen ∧ target ≠ State.StateSynSent))) ∧
    ((tcb.Open iss wnd target).2 ≠ none → (tcb.Open iss wnd target).1 = tcb) := by
  unfold ControlBlock.Open
  by_cases h1 : tcb.state ≠ State.StateClosed ∧ tcb.state ≠ State.StateListen
  · have h1' : ¬ (tcb.state = State.StateClosed ∨ tcb.state = State.StateListen) := by
      rintro (h | h) <;> simp [h] at h1
    simp [h1, h1']
  · have h1' : tcb.state = State.StateClosed ∨ tcb.state = State.StateListen := by
      by_contra hc
      exact h1 ⟨fun h => hc (Or.inl h), fun h => hc (Or.inr h)⟩
    by_cases h2 : target ≠ State.StateListen ∧ target ≠ State.StateSynSent
    · simp [h1, h2]
    · by_cases h3 : wnd > MaxUint16
      · simp [h1, h2, h3]
      · simp [h1, h2, h3]

theorem Open_errors_witness :
    (sampleEstablished.Open 7 100 State.StateListen).2 = some Err.errTCBNotClosed ∧
      ((ControlBlock.zero.Open 7 100 State.StateEstablished).2 = some Err.errInvalidState ↔
        (State.StateEstablished ≠ State.StateListen ∧
          State.StateEstablished ≠ State.StateSynSent)) :=
  ⟨(Open_errors sampleEstablished 7 100 State.StateListen).1.mpr (by decide),
    (Open_errors ControlBlock.zero 7 100 State.StateEstablished).2.1 (Or.inl rfl)⟩

/-- C7: after a successful `Open(iss, wnd, target)`: `State()` is `target`; the
pending queue is `[SYN, 0]` when the target is SYN-SENT and `[0, 0]` when it is
LISTEN, whatever it held before; `ISS()` is `iss`; `RecvWindow()` is `wnd`;
`RecvNext()` is 0. -/
theorem Open_success (tcb : ControlBlock) (iss : Value) (wnd : Size) (target : State)
    (h : (tcb.Open iss wnd target).2 = none) :
    (tcb.Open iss wnd target).1.State = target ∧
    (target = State.StateSynSent → (tcb.Open iss wnd target).1.pending = (FlagSYN, 0)) ∧
    (target = State.StateListen → (tcb.Open iss wnd target).1.pending = (0, 0)) ∧
    (tcb.Open iss wnd target).1.ISS = iss ∧
    (tcb.Open iss wnd target).1.RecvWindow = wnd ∧
    (tcb.Open iss wnd target).1.RecvNext = 0 := by
  obtain ⟨hs, ht, hw⟩ := Open_nil_guards tcb iss wnd target h
  obtain ⟨-, h1, h2, h3, h4, h5⟩ := Open_valid tcb iss wnd target hs ht hw
  refine ⟨h1, ?_, ?_, h3, h4, h5⟩
  · intro e; rw [h2, if_pos e]
  · intro e; rw [h2, if_neg (by rw [e]; decide)]

theorem Open_success_witness :
    (({ sampleEstablished with state := State.StateListen, pending := (FlagACK, FlagFIN) }
        : ControlBlock).Open 1337 2048 State.StateSynSent).2 = none ∧
      (({ sampleEstablished with state := State.StateListen, pending := (FlagACK, FlagFIN) }
        : ControlBlock).Open 1337 2048 State.StateSynSent).1.pending = (FlagSYN, 0) :=
  ⟨by decide,
    (Open_success _ 1337 2048 State.StateSynSent (by decide)).2.1 rfl⟩

/-- C8, as stated, fails: a window of 65536 (which is `≤ 2 ^ 16`) is refused
by `Open` on a fresh control block with target LISTEN, and the error for a
window of 70000 is `errWindowTooLarge`, not the `errWindowOverflow` of
control_user.go:24. -/
theorem Open_window_65536_refused :
    65536 ≤ 2 ^ 16 ∧
      (ControlBlock.zero.Open 0 65536 State.StateListen).2 = some Err.errWindowTooLarge ∧
      (ControlBlock.zero.Open 0 70000 State.StateListen).2 = some Err.errWindowTooLarge ∧
      (ControlBlock.zero.Open 0 70000 State.StateListen).2 ≠ some Err.errWindowOverflow := by
  decide

/-- C8, amended: for a control block in CLOSED or LISTEN and a target of LISTEN
or SYN-SENT, `Open` succeeds for every `wnd ≤ 65535` (`math.MaxUint16`) and
fails for every `wnd > 65535`; the error it then returns is
`errWindowTooLarge` and the control block is unchanged. -/
theorem Open_window_bound (tcb : ControlBlock) (iss : Value) (wnd : Size) (target : State)
    (hs : tcb.state = State.StateClosed ∨ tcb.state = State.StateListen)
    (ht : target = State.StateListen ∨ target = State.StateSynSent) :
    (wnd ≤ 65535 → (tcb.Open iss wnd target).2 = none) ∧
    (wnd > 65535 → tcb.Open iss wnd target = (tcb, some Err.errWindowTooLarge)) := by
  exact ⟨fun hw => (Open_valid tcb iss wnd target hs ht hw).1,
    fun hw => Open_too_large tcb iss wnd target hs ht hw⟩

theorem Open_window_bound_witness :
    (ControlBlock.zero.Open 0 65535 State.StateListen).2 = none ∧
      ControlBlock.zero.Open 0 70000 State.StateSynSent
        = (ControlBlock.zero, some Err.errWindowTooLarge) :=
  ⟨(Open_window_bound ControlBlock.zero 0 65535 State.StateListen (Or.inl rfl) (Or.inl rfl)).1
      (by decide),
    (Open_window_bound ControlBlock.zero 0 70000 State.StateSynSent (Or.inl rfl) (Or.inr rfl)).2
      (by decide)⟩

/-- C9: the errors of `Close`.  `Close` returns an error exactly in CLOSED,
FIN-WAIT-2 and TIME-WAIT: `errConnNotexist` exactly in CLOSED and
`errConnectionClosing` exactly in FIN-WAIT-2 and TIME-WAIT; in those three
states and in FIN-WAIT-1, CLOSING and LAST-ACK (where it returns nil) `Close`
leaves the control block unchanged. -/
theorem Close_errors (tcb : ControlBlock) :
    (tcb.Close.2 ≠ none ↔
      (tcb.state = State.StateClosed ∨ tcb.state = State.StateFinWait2 ∨
        tcb.state = State.StateTimeWait)) ∧
    (tcb.Close.2 = some Err.errConnNotexist ↔ tcb.state = State.StateClosed) ∧
    (tcb.Close.2 = some Err.errConnectionClosing ↔
      (tcb.state = State.StateFinWait2 ∨ tcb.state = State.StateTimeWait)) ∧
    ((tcb.state = State.StateClosed ∨ tcb.state = State.StateFinWait2 ∨
        tcb.state = State.StateTimeWait ∨ tcb.state = State.StateFinWait1 ∨
        tcb.state = State.StateClosing ∨ tcb.state = State.StateLastAck) →
      tcb.Close.1 = tcb) ∧
    ((tcb.state = State.StateFinWait1 ∨ tcb.state = State.StateClosing ∨
        tcb.state = State.StateLastAck) → tcb.Close.2 = none) := by
  unfold ControlBlock.Close
  cases hs : tcb.state <;> simp

theorem Close_errors_witness :
    sampleFinWait1.Close = (sampleFinWait1, none) ∧
      ControlBlock.zero.Close.2 = some Err.errConnNotexist :=
  ⟨Prod.ext
      ((Close_errors sampleFinWait1).2.2.2.1 (Or.inr (Or.inr (Or.inr (Or.inl rfl)))))
      ((Close_errors sampleFinWait1).2.2.2.2 (Or.inl rfl)),
    (Close_errors ControlBlock.zero).2.1.mpr rfl⟩

/-- C10: `Close` in LISTEN or SYN-SENT returns nil and leaves the control block
in CLOSED with both pending slots empty.  In particular, on a CLOSED control
block, for every `iss` and every `wnd ≤ 65535`, `Open(iss, wnd, LISTEN)`
succeeds and `Close` after it yields `State() = CLOSED` with no pending flags;
the SYN queued by `Open(iss, wnd, SYN-SENT)` is dropped likewise. -/
theorem Close_collapses (tcb : ControlBlock) :
    ((tcb.state = State.StateListen ∨ tcb.state = State.StateSynSent) →
      tcb.Close.2 = none ∧ tcb.Close.1.State = State.StateClosed ∧
        tcb.Close.1.pending = (0, 0)) ∧
    (∀ (iss : Value) (wnd : Size) (target : State),
      tcb.state = State.StateClosed → wnd ≤ 65535 →
      (target = State.StateListen ∨ target = State.StateSynSent) →
      (tcb.Open iss wnd target).2 = none ∧
        (target = State.StateSynSent → (tcb.Open iss wnd target).1.pending = (FlagSYN, 0)) ∧
        (tcb.Open iss wnd target).1.Close.2 = none ∧
        (tcb.Open iss wnd target).1.Close.1.State = State.StateClosed ∧
        (tcb.Open iss wnd target).1.Close.1.pending = (0, 0)) := by
  have key : ∀ t : ControlBlock,
      (t.state = State.StateListen ∨ t.state = State.StateSynSent) →
      t.Close.2 = none ∧ t.Close.1.State = State.StateClosed ∧ t.Close.1.pending = (0, 0) := by
    intro t ht
    unfold ControlBlock.Close
    rcases ht with ht | ht <;> simp [ht, ControlBlock.close, ControlBlock.State]
  refine ⟨key tcb, ?_⟩
  intro iss wnd target hs hw ht
  obtain ⟨hok, hst, hp, -⟩ := Open_valid tcb iss wnd target (Or.inl hs) ht hw
  have hk := key (tcb.Open iss wnd target).1 (by rw [hst]; exact ht)
  exact ⟨hok, fun e => by rw [hp, if_pos e], hk⟩

theorem Close_collapses_witness :
    (ControlBlock.zero.Open 1337 65535 State.StateListen).2 = none ∧
      (ControlBlock.zero.Open 1337 65535 State.StateListen).1.Close.1.State
        = State.StateClosed ∧
      (ControlBlock.zero.Open 1337 65535 State.StateListen).1.Close.1.pending = (0, 0) :=
  have h := (Close_collapses ControlBlock.zero).2 1337 65535 State.StateListen rfl
    (by decide) (Or.inl rfl)
  ⟨h.1, h.2.2.2.1, h.2.2.2.2⟩

/-- C11: `Close` in SYN-RCVD or ESTABLISHED returns nil, keeps the state and
sets pending slot 0 to `(old slot 0 & ACK) | FIN`: bit by bit, a bit is set
afterwards exactly when it is the FIN bit or it is the ACK bit and was pending;
every other bit is removed.  Pending slot 1, snd and rcv are unchanged. -/
theorem Close_queues_fin (tcb : ControlBlock)
    (hs : tcb.state = State.StateSynRcvd ∨ tcb.state = State.StateEstablished) :
    tcb.Close.2 = none ∧ tcb.Close.1.State = tcb.state ∧
    tcb.Close.1.pending.1 = (tcb.pending.1 &&& FlagACK) ||| FlagFIN ∧
    (∀ i : Nat, tcb.Close.1.pending.1.testBit i
      = ((tcb.pending.1.testBit i && FlagACK.testBit i) || FlagFIN.testBit i)) ∧
    tcb.Close.1.pending.2 = tcb.pending.2 ∧
    tcb.Close.1.snd = tcb.snd ∧ tcb.Close.1.rcv = tcb.rcv := by
  unfold ControlBlock.Close ControlBlock.State
  rcases hs with hs | hs <;> simp [hs, Nat.testBit_or, Nat.testBit_and]

theorem Close_queues_fin_witness :
    (({ sampleEstablished with pending := (synack, FlagPSH) } : ControlBlock).Close).1.pending
      = (finack, FlagPSH) :=
  have h := Close_queues_fin { sampleEstablished with pending := (synack, FlagPSH) }
    (Or.inr rfl)
  Prod.ext (h.2.2.1.trans (by decide)) (h.2.2.2.2.1.trans (by decide))

/-- C12, as stated, fails: after `Close` on the CLOSE-WAIT control block of the
close scenario, pending slot 0 is FIN alone, not FIN|ACK; the ACK is in slot
1. -/
theorem Close_closeWait_slot0_is_fin :
    clB2.state = State.StateCloseWait ∧ clB2.Close.2 = none ∧
      clB2.Close.1.pending.1 = FlagFIN ∧ clB2.Close.1.pending.1 ≠ finack ∧
      clB2.Close.1.pending.2 = FlagACK := by
  decide

/-- C12, amended: `Close` in CLOSE-WAIT returns nil, moves the state to
LAST-ACK and replaces the pending queue by `[FIN, ACK]`: slot 0 is exactly
FIN and slot 1 is exactly ACK, whatever the slots held; snd and rcv are
unchanged. -/
theorem Close_closeWait (tcb : ControlBlock) (hs : tcb.state = State.StateCloseWait) :
    tcb.Close.2 = none ∧ tcb.Close.1.State = State.StateLastAck ∧
    tcb.Close.1.pending = (FlagFIN, FlagACK) ∧
    tcb.Close.1.snd = tcb.snd ∧ tcb.Close.1.rcv = tcb.rcv := by
  unfold ControlBlock.Close ControlBlock.State
  simp [hs]

theorem Close_closeWait_witness :
    clB2.Close.1.State = State.StateLastAck ∧ clB2.Close.1.pending = (FlagFIN, FlagACK) :=
  have h := Close_closeWait clB2 (by decide)
  ⟨h.2.1, h.2.2.1⟩

/-- C13: `Send` in CLOSE-WAIT.  For an accepted segment that carries ACK but
not FIN, the state stays CLOSE-WAIT and FIN|ACK is OR-ed into slot 0 of the
advanced queue, so that slot 0 contains both FIN and ACK afterwards.  For an
accepted segment that carries neither FIN nor ACK the queue is only advanced:
no new flags are enqueued. -/
theorem Send_closeWait (m : Methods) (tcb : ControlBlock) (seg : Segment)
    (hs : tcb.state = State.StateCloseWait)
    (hv : m.validateOutgoingSegment tcb seg = none)
    (hfin : seg.Flags.HasAny FlagFIN = false) :
    (ControlBlock.Send m tcb seg).1.State = State.StateCloseWait ∧
    (seg.Flags.HasAny FlagACK = true →
      (ControlBlock.Send m tcb seg).1.pending =
        ((if Flags.clear tcb.pending.1 seg.Flags = 0 then tcb.pending.2
            else Flags.clear tcb.pending.1 seg.Flags) ||| finack,
          if Flags.clear tcb.pending.1 seg.Flags = 0 then 0 else tcb.pending.2) ∧
      (ControlBlock.Send m tcb seg).1.pending.1 &&& finack = finack ∧
      Flags.HasAny (ControlBlock.Send m tcb seg).1.pending.1 FlagFIN = true ∧
      Flags.HasAny (ControlBlock.Send m tcb seg).1.pending.1 FlagACK = true) ∧
    (seg.Flags.HasAny FlagACK = false →
      (ControlBlock.Send m tcb seg).1.pending =
        (if Flags.clear tcb.pending.1 seg.Flags = 0 then (tcb.pending.2, 0)
          else (Flags.clear tcb.pending.1 seg.Flags, tcb.pending.2))) := by
  have hp : ∀ np : Flags,
      (ControlBlock.Send m tcb seg).1.pending.1 =
        (if Flags.clear tcb.pending.1 seg.Flags = 0 then tcb.pending.2
          else Flags.clear tcb.pending.1 seg.Flags) ||| np →
      np = finack →
      (ControlBlock.Send m tcb seg).1.pending.1 &&& finack = finack ∧
      Flags.HasAny (ControlBlock.Send m tcb seg).1.pending.1 FlagFIN = true ∧
      Flags.HasAny (ControlBlock.Send m tcb seg).1.pending.1 FlagACK = true := by
    intro np h1 h2
    subst h2
    rw [h1]
    exact ⟨Flags.or_and_self _ _, Flags.hasAny_of_finack _⟩
  refine ⟨?_, ?_, ?_⟩
  · simp only [ControlBlock.Send, hv, hs, hfin, ControlBlock.State]
    cases seg.Flags.HasAny FlagACK <;> simp
  · intro hack
    have hq : (ControlBlock.Send m tcb seg).1.pending =
        ((if Flags.clear tcb.pending.1 seg.Flags = 0 then tcb.pending.2
            else Flags.clear tcb.pending.1 seg.Flags) ||| finack,
          if Flags.clear tcb.pending.1 seg.Flags = 0 then 0 else tcb.pending.2) := by
      simp only [ControlBlock.Send, hv, hs, hfin, hack]
      split <;> simp
    exact ⟨hq, hp finack (by rw [hq]) rfl⟩
  · intro hack
    simp only [ControlBlock.Send, hv, hs, hfin, hack]
    split <;> simp

theorem Send_closeWait_witness :
    specMethods.validateOutgoingSegment clB1 clAckB = none ∧
      clB1.pending = (FlagACK, 0) ∧
      (ControlBlock.Send specMethods clB1 clAckB).1.State = State.StateCloseWait ∧
      (ControlBlock.Send specMethods clB1 clAckB).1.pending = (finack, 0) :=
  have h := Send_closeWait specMethods clB1 clAckB (by decide) (by decide) (by decide)
  ⟨by decide, by decide, h.1, ((h.2.1 (by decide)).1).trans (by decide)⟩

/-- C14: `Recv` in LAST-ACK.  For a segment that the validator accepts, `Recv`
returns nil; the state afterwards is CLOSED if the segment carries ACK and
LAST-ACK if it does not. -/
theorem Recv_lastAck (m : Methods) (tcb : ControlBlock) (seg : Segment)
    (hs : tcb.state = State.StateLastAck)
    (hv : m.validateIncomingSegment tcb seg = none) :
    ∃ t : ControlBlock, ControlBlock.Recv m tcb seg = Outcome.returned t none ∧
      (seg.Flags.HasAny FlagACK = true → t.State = State.StateClosed) ∧
      (seg.Flags.HasAny FlagACK = false → t.State = State.StateLastAck) := by
  cases hack : seg.Flags.HasAny FlagACK
  · refine ⟨_, by simp only [ControlBlock.Recv, hv, ControlBlock.rcvDispatch, hs, hack]; rfl,
      ?_, ?_⟩
    · intro h; cases h
    · intro _; simp [ControlBlock.State, hs]
  · refine ⟨_, by simp only [ControlBlock.Recv, hv, ControlBlock.rcvDispatch, hs, hack]; rfl,
      ?_, ?_⟩
    · intro _; simp [ControlBlock.State, ControlBlock.close]
    · intro h; cases h

theorem Recv_lastAck_witness :
    clB4.state = State.StateLastAck ∧
      specMethods.validateIncomingSegment clB4 clAckA = none ∧
      ∃ t : ControlBlock, ControlBlock.Recv specMethods clB4 clAckA = Outcome.returned t none ∧
        t.State = State.StateClosed :=
  ⟨by decide, by decide,
    (Recv_lastAck specMethods clB4 clAckA (by decide) (by decide)).elim
      (fun t ht => ⟨t, ht.1, ht.2.1 (by decide)⟩)⟩

/-- C15: no segment is accepted in TIME-WAIT.  For a control block in TIME-WAIT
and any segment, `Recv` never returns nil, and the control block it leaves is
the one it was given: a segment that the validator rejects is returned with
the validator's error, and one that the validator accepts reaches the default
branch of the switch, where `Recv` panics before any assignment. -/
theorem Recv_timeWait (m : Methods) (tcb : ControlBlock) (seg : Segment)
    (hs : tcb.state = State.StateTimeWait) :
    (∀ t : ControlBlock, ControlBlock.Recv m tcb seg ≠ Outcome.returned t none) ∧
    (ControlBlock.Recv m tcb seg).tcb = tcb ∧
    (∀ e : Err, m.validateIncomingSegment tcb seg = some e →
      ControlBlock.Recv m tcb seg = Outcome.returned tcb (some e)) ∧
    (m.validateIncomingSegment tcb seg = none →
      ControlBlock.Recv m tcb seg = Outcome.panicked tcb) := by
  cases hv : m.validateIncomingSegment tcb seg with
  | some e =>
    have h : ControlBlock.Recv m tcb seg = Outcome.returned tcb (some e) := by
      simp [ControlBlock.Recv, hv]
    refine ⟨?_, ?_, ?_, ?_⟩
    · intro t ht; rw [h] at ht; simp at ht
    · rw [h]; rfl
    · intro e' he'; cases he'; exact h
    · intro hn; cases hn
  | none =>
    have h := Recv_default_branch m tcb seg (Or.inr (Or.inr hs)) hv
    refine ⟨?_, ?_, ?_, ?_⟩
    · intro t ht; rw [h] at ht; cases ht
    · rw [h]; rfl
    · intro e he; cases he
    · intro _; exact h

theorem Recv_timeWait_witness :
    clA5.state = State.StateTimeWait ∧
      ControlBlock.Recv specMethods clA5 { clFinB with WND := 70000 }
        = Outcome.returned clA5 (some Err.errWindowOverflow) ∧
      ControlBlock.Recv specMethods clA5
          { SEQ := 302, ACK := 102, DATALEN := 1, WND := 1000, Flags := FlagACK }
        = Outcome.panicked clA5 :=
  ⟨by decide,
    (Recv_timeWait specMethods clA5 { clFinB with WND := 70000 } (by decide)).2.2.1 _
      (by decide),
    (Recv_timeWait specMethods clA5
      { SEQ := 302, ACK := 102, DATALEN := 1, WND := 1000, Flags := FlagACK }
      (by decide)).2.2.2 (by decide)⟩

/-- C16 fails on the code: `Recv` has no case for CLOSING, TIME-WAIT and
CLOSED.  The peer's ACK of our FIN, received in CLOSING, passes the validator
and reaches the "unexpected state" panic; so do a segment received in
TIME-WAIT after the close scenario and an ACK received by a fresh (CLOSED)
control block. -/
theorem Recv_panics_in_closing :
    sampleClosing.state = State.StateClosing ∧
      specMethods.validateIncomingSegment sampleClosing samplePeerAckOfFin = none ∧
      ControlBlock.Recv specMethods sampleClosing samplePeerAckOfFin
        = Outcome.panicked sampleClosing ∧
      clA5.state = State.StateTimeWait ∧
      ControlBlock.Recv specMethods clA5
          { SEQ := 302, ACK := 102, DATALEN := 1, WND := 1000, Flags := FlagACK }
        = Outcome.panicked clA5 ∧
      ControlBlock.Recv specMethods ControlBlock.zero
          { SEQ := 0, ACK := 0, DATALEN := 0, WND := 0, Flags := FlagACK }
        = Outcome.panicked ControlBlock.zero := by
  decide

/-- C17: the sequential requirement.  In every state at or after SYN-RCVD
(all but CLOSED, LISTEN and SYN-SENT), a segment whose `SEQ` differs from
`rcv.NXT` is rejected by `Recv` with a reject error and the control block is
unchanged; the error is `errRequireSequential` unless the window of the
segment overflows, which is checked first. -/
theorem Recv_requires_sequential (tcb : ControlBlock) (seg : Segment)
    (hs : tcb.state ≠ State.StateClosed ∧ tcb.state ≠ State.StateListen ∧
      tcb.state ≠ State.StateSynSent)
    (hseq : seg.SEQ ≠ tcb.rcv.NXT) :
    ∃ e : Err, e.isReject = true ∧
      ControlBlock.Recv specMethods tcb seg = Outcome.returned tcb (some e) ∧
      (seg.WND ≤ 2 ^ 16 → e = Err.errRequireSequential) := by
  have hsync : tcb.state.sinceSynRcvd = true := by
    obtain ⟨h1, h2, h3⟩ := hs
    cases hst : tcb.state <;> simp_all [State.sinceSynRcvd]
  by_cases hw : seg.WND > 2 ^ 16
  · have hval : specMethods.validateIncomingSegment tcb seg = some Err.errWindowOverflow := by
      show ControlBlock.validateIncomingSegment tcb seg = _
      unfold ControlBlock.validateIncomingSegment
      simp only [if_pos hw]
    refine ⟨Err.errWindowOverflow, rfl, ?_, ?_⟩
    · simp [ControlBlock.Recv, hval]
    · intro h
      exact absurd h (Nat.not_le.mpr hw)
  · have hval : specMethods.validateIncomingSegment tcb seg = some Err.errRequireSequential := by
      show ControlBlock.validateIncomingSegment tcb seg = _
      unfold ControlBlock.validateIncomingSegment
      simp only [if_neg hw]
      simp [hsync, hseq]
    refine ⟨Err.errRequireSequential, rfl, ?_, fun _ => rfl⟩
    simp [ControlBlock.Recv, hval]

theorem Recv_requires_sequential_witness :
    sampleRcv500.rcv.NXT = 500 ∧ sampleSeq501.SEQ = 501 ∧ sampleSeq501.LEN = 1 ∧
      ControlBlock.Recv specMethods sampleRcv500 sampleSeq501
        = Outcome.returned sampleRcv500 (some Err.errRequireSequential) :=
  ⟨rfl, rfl, by decide,
    (Recv_requires_sequential sampleRcv500 sampleSeq501 (by decide) (by decide)).elim
      (fun e he => by rw [he.2.1, he.2.2 (by decide)])⟩

/-- C18: the three-way handshake of spec §8, scenario 1.  A is opened with
`Open(100, 1000, SYN-SENT)` and B with `Open(300, 1000, LISTEN)`.  A's pending
segment is the SYN `{SEQ=100}`; A sends it and B receives it and becomes
SYN-RCVD.  B's pending segment is the SYN|ACK `{SEQ=300, ACK=101}`; B sends it
and A receives it and becomes ESTABLISHED.  A's pending segment is the ACK
`{SEQ=101, ACK=301}`; A sends it and B, until then SYN-RCVD, receives it and
becomes ESTABLISHED.  Every `Open`, `Send` and `Recv` returns nil, and
afterwards neither control block has a pending segment. -/
theorem handshake_three_segments :
    (ControlBlock.zero.Open 100 1000 State.StateSynSent).2 = none ∧
    (ControlBlock.zero.Open 300 1000 State.StateListen).2 = none ∧
    hsSyn = { SEQ := 100, ACK := 0, DATALEN := 0, WND := 1000, Flags := FlagSYN } ∧
    (ControlBlock.Send specMethods hsA0 hsSyn).2 = none ∧
    ControlBlock.Recv specMethods hsB0 hsSyn = Outcome.returned hsB1 none ∧
    hsB1.State = State.StateSynRcvd ∧
    hsSynAck = { SEQ := 300, ACK := 101, DATALEN := 0, WND := 1000, Flags := synack } ∧
    (ControlBlock.Send specMethods hsB1 hsSynAck).2 = none ∧
    ControlBlock.Recv specMethods hsA1 hsSynAck = Outcome.returned hsA2 none ∧
    hsA2.State = State.StateEstablished ∧
    hsAck = { SEQ := 101, ACK := 301, DATALEN := 0, WND := 1000, Flags := FlagACK } ∧
    (ControlBlock.Send specMethods hsA2 hsAck).2 = none ∧
    hsB2.State = State.StateSynRcvd ∧
    ControlBlock.Recv specMethods hsB2 hsAck = Outcome.returned hsB3 none ∧
    hsA3.State = State.StateEstablished ∧ hsB3.State = State.StateEstablished ∧
    hsA3.pending = (0, 0) ∧ hsB3.pending = (0, 0) ∧
    hsA3.PendingSegment 0 = { SEQ := 0, ACK := 0, DATALEN := 0, WND := 0, Flags := 0 } ∧
    hsB3.PendingSegment 0 = { SEQ := 0, ACK := 0, DATALEN := 0, WND := 0, Flags := 0 } := by
  decide

/-- C19, as stated, fails: after the normal close sequence of spec §8 scenario
2 (every `Send` and `Recv` of it returns nil), A is in TIME-WAIT having sent
its final ACK and B is in CLOSED; `Open` with a new ISS succeeds on B, but on A
it returns `errTCBNotClosed`, for either target. -/
theorem reopen_refused_in_timeWait :
    (ControlBlock.Send specMethods clA1 clFinA).2 = none ∧
    ControlBlock.Recv specMethods hsB3 clFinA = Outcome.returned clB1 none ∧
    (ControlBlock.Send specMethods clB1 clAckB).2 = none ∧
    ControlBlock.Recv specMethods clA2 clAckB = Outcome.returned clA3 none ∧
    (ControlBlock.Send specMethods clB3 clFinB).2 = none ∧
    ControlBlock.Recv specMethods clA3 clFinB = Outcome.returned clA4 none ∧
    (ControlBlock.Send specMethods clA4 clAckA).2 = none ∧
    ControlBlock.Recv specMethods clB4 clAckA = Outcome.returned clB5 none ∧
    clA5.State = State.StateTimeWait ∧ clB5.State = State.StateClosed ∧
    (clB5.Open 1337 1000 State.StateListen).2 = none ∧
    (clA5.Open 1337 1000 State.StateSynSent).2 = some Err.errTCBNotClosed ∧
    (clA5.Open 1337 1000 State.StateListen).2 = some Err.errTCBNotClosed := by
  decide

/-- C19, amended: with a window `≤ 65535` and a target of LISTEN or SYN-SENT,
`Open` succeeds on a control block in CLOSED (B after the close sequence); on
a control block in TIME-WAIT (A after the close sequence) it returns
`errTCBNotClosed` and leaves the control block unchanged. -/
theorem Open_after_close (tcb : ControlBlock) (iss : Value) (wnd : Size) (target : State)
    (hw : wnd ≤ 65535)
    (ht : target = State.StateListen ∨ target = State.StateSynSent) :
    (tcb.state = State.StateClosed → (tcb.Open iss wnd target).2 = none) ∧
    (tcb.state = State.StateTimeWait →
      tcb.Open iss wnd target = (tcb, some Err.errTCBNotClosed)) := by
  constructor
  · intro hs
    exact (Open_valid tcb iss wnd target (Or.inl hs) ht hw).1
  · intro hs
    unfold ControlBlock.Open
    simp [hs]

theorem Open_after_close_witness :
    (clB5.Open 1337 1000 State.StateListen).2 = none ∧
      clA5.Open 1337 1000 State.StateSynSent = (clA5, some Err.errTCBNotClosed) :=
  ⟨(Open_after_close clB5 1337 1000 State.StateListen (by decide) (Or.inl rfl)).1 (by decide),
    (Open_after_close clA5 1337 1000 State.StateSynSent (by decide) (Or.inr rfl)).2
      (by decide)⟩

/-- C20, as stated, fails.  `sampleInFlight` satisfies the send-space invariant
(10 bytes in flight, window 1000).  It accepts an ACK of the peer that
acknowledges four of them and advertises a window of 2; afterwards
`Sizeof(snd.UNA, snd.NXT) = 6` exceeds `snd.WND = 2`.  It also accepts an
outgoing segment of 995 bytes that starts at `snd.NXT`: its last byte lies in
`[snd.NXT, snd.NXT + snd.WND)`, a window that is counted from `snd.NXT` and not
from `snd.UNA`; afterwards 1005 bytes are in flight in a window of 1000. -/
theorem sendSpace_not_preserved :
    sampleInFlight.sendSpaceOk ∧
    ControlBlock.Recv specMethods sampleInFlight samplePartialAck
      = Outcome.returned
          { sampleInFlight with snd := { sampleInFlight.snd with UNA := 105, WND := 2 } }
          none ∧
    Sizeof 105 sampleInFlight.snd.NXT = 6 ∧
    ¬ (ControlBlock.Recv specMethods sampleInFlight samplePartialAck).tcb.sendSpaceOk ∧
    (ControlBlock.Send specMethods sampleInFlight sampleData995).2 = none ∧
    Sizeof sampleInFlight.snd.UNA
      (ControlBlock.Send specMethods sampleInFlight sampleData995).1.snd.NXT = 1005 ∧
    ¬ (ControlBlock.Send specMethods sampleInFlight sampleData995).1.sendSpaceOk := by
  decide

/-- C20, amended: the send-space invariant `Sizeof(snd.UNA, snd.NXT) ≤ snd.WND`
holds after an accepted `Send` whose length fits in what is left of the send
window (`Sizeof(snd.UNA, snd.NXT) + seg.LEN ≤ snd.WND` before the call).  After
an accepted `Recv` it holds exactly when the window that the segment
advertises covers what is then unacknowledged, that is
`Sizeof(a, snd.NXT) ≤ seg.WND` with `a` the `seg.ACK` of a segment that carries
ACK and the old `snd.UNA` otherwise; in particular, outside SYN-SENT, a control
block that satisfies the invariant still satisfies it after every accepted
`Recv` that does not shrink the send window (`snd.WND ≤ seg.WND`). -/
theorem sendSpace_preserved (m : Methods) (tcb : ControlBlock) (seg : Segment) :
    (m.validateOutgoingSegment tcb seg = none →
      Sizeof tcb.snd.UNA tcb.snd.NXT + seg.LEN ≤ tcb.snd.WND →
      (ControlBlock.Send m tcb seg).1.sendSpaceOk) ∧
    (∀ tcb' : ControlBlock,
      ControlBlock.Recv specMethods tcb seg = Outcome.returned tcb' none →
      (tcb'.sendSpaceOk ↔
        Sizeof (if seg.Flags.HasAny FlagACK then seg.ACK else tcb.snd.UNA) tcb.snd.NXT
          ≤ seg.WND) ∧
      (tcb.sendSpaceOk → tcb.state ≠ State.StateSynSent → tcb.snd.WND ≤ seg.WND →
        tcb'.sendSpaceOk)) := by
  constructor
  · intro hv hfit
    have h1 : (ControlBlock.Send m tcb seg).1.snd
        = { tcb.snd with NXT := (tcb.snd.NXT + seg.LEN) % 2 ^ 32 } := by
      simp [ControlBlock.Send, hv, Value.UpdateForward]
    unfold ControlBlock.sendSpaceOk
    rw [h1]
    exact Nat.le_trans (Sizeof_forward_le tcb.snd.UNA tcb.snd.NXT seg.LEN) hfit
  · intro tcb' h
    have hv := Recv_nil_validated specMethods tcb tcb' seg h
    obtain ⟨hd, hdisp, -, rfl⟩ := Recv_nil_form specMethods tcb tcb' seg h
    have hsnd := specMethods_dispatch_snd tcb seg hd hdisp
    have hiff : (ControlBlock.recvCommit hd seg).sendSpaceOk ↔
        Sizeof (if seg.Flags.HasAny FlagACK then seg.ACK else tcb.snd.UNA) tcb.snd.NXT
          ≤ seg.WND := by
      unfold ControlBlock.sendSpaceOk ControlBlock.recvCommit
      simp only [hsnd]
    refine ⟨hiff, ?_⟩
    intro hinv hns hw
    rw [hiff]
    have hinv' : Sizeof tcb.snd.UNA tcb.snd.NXT ≤ tcb.snd.WND := hinv
    cases hack : seg.Flags.HasAny FlagACK
    · simp only [Bool.false_eq_true, if_false]
      exact Nat.le_trans hinv' hw
    · simp only [if_true]
      have hin : Sizeof tcb.snd.UNA seg.ACK ≤ Sizeof tcb.snd.UNA tcb.snd.NXT := by
        cases hst : tcb.state
        case StateSynSent => exact absurd hst hns
        case StateListen =>
          have hf := specMethods_incoming_listen tcb seg hv hst
          rw [hf] at hack
          exact absurd hack (by decide)
        case StateClosed =>
          simp [ControlBlock.rcvDispatch, hst] at hdisp
        all_goals exact specMethods_incoming_ack tcb seg hv (by rw [hst]; rfl) hack
      exact Nat.le_trans (Nat.le_trans (Sizeof_ack_le _ _ _ hin) hinv') hw

theorem sendSpace_preserved_witness :
    sampleInFlight.sendSpaceOk ∧
      ControlBlock.Recv specMethods sampleInFlight { samplePartialAck with WND := 1000 }
        = Outcome.returned
            { sampleInFlight with snd := { sampleInFlight.snd with UNA := 105 } } none ∧
      ({ sampleInFlight with snd := { sampleInFlight.snd with UNA := 105 } }
        : ControlBlock).sendSpaceOk ∧
      (ControlBlock.Send specMethods sampleEstablished.Close.1 sampleFinAck).1.sendSpaceOk :=
  ⟨by decide, by decide,
    ((sendSpace_preserved specMethods sampleInFlight { samplePartialAck with WND := 1000 }).2 _
      (by decide)).2 (by decide) (by decide) (by decide),
    (sendSpace_preserved specMethods sampleEstablished.Close.1 sampleFinAck).1
      (by decide) (by decide)⟩

/-- C21 fails on the code: `SetRecvWindow` assigns `rcv.WND` without a bound.
On a fresh control block, which satisfies the window bound,
`SetRecvWindow(70000)` leaves `rcv.WND = 70000 > 2 ^ 16`, a window that `Open`
refuses.  On the established control block `clA1` it makes the pending segment
carry a window of 70000, which `Send` then rejects with `errWindowOverflow`. -/
theorem SetRecvWindow_breaks_window_bound :
    ControlBlock.zero.windowsOk ∧
    (ControlBlock.zero.SetRecvWindow 70000).RecvWindow = 70000 ∧
    ¬ (ControlBlock.zero.SetRecvWindow 70000).windowsOk ∧
    (ControlBlock.zero.Open 0 70000 State.StateListen).2 = some Err.errWindowTooLarge ∧
    clA1.windowsOk ∧ ¬ (clA1.SetRecvWindow 70000).windowsOk ∧
    ((clA1.SetRecvWindow 70000).PendingSegment 0).WND = 70000 ∧
    (ControlBlock.Send specMethods (clA1.SetRecvWindow 70000)
      ((clA1.SetRecvWindow 70000).PendingSegment 0)).2 = some Err.errWindowOverflow := by
  decide

/-- C22: `MaxInFlightData` changes nothing in the control block; it returns 0
when `hasIRS` is false, that is in CLOSED, LISTEN and SYN-SENT; otherwise it
returns `snd.WND − Sizeof(snd.UNA, snd.NXT) − 1` in unsigned 32-bit arithmetic,
that is the integer difference reduced modulo `2 ^ 32`, where
`Sizeof(a, b) = (b − a) mod 2 ^ 32`. -/
theorem MaxInFlightData_value (tcb : ControlBlock) :
    tcb.MaxInFlightData.1 = tcb ∧
    (tcb.hasIRS = false → tcb.MaxInFlightData.2 = 0) ∧
    (tcb.hasIRS = false ↔ (tcb.state = State.StateClosed ∨ tcb.state = State.StateListen ∨
      tcb.state = State.StateSynSent)) ∧
    (tcb.hasIRS = true →
      (tcb.MaxInFlightData.2 : Int)
        = ((tcb.snd.WND : Int) - (Sizeof tcb.snd.UNA tcb.snd.NXT : Int) - 1) % 2 ^ 32) ∧
    (Sizeof tcb.snd.UNA tcb.snd.NXT : Int)
      = ((tcb.snd.NXT : Int) - (tcb.snd.UNA : Int)) % 2 ^ 32 := by
  refine ⟨?_, ?_, ?_, ?_, ?_⟩
  · unfold ControlBlock.MaxInFlightData
    split <;> rfl
  · intro h
    simp [ControlBlock.MaxInFlightData, h]
  · unfold ControlBlock.hasIRS
    cases tcb.state <;> simp [State.sinceSynRcvd]
  · intro h
    simp only [ControlBlock.MaxInFlightData, h, Size.sub, Bool.not_true, Bool.false_eq_true,
      if_false]
    generalize Sizeof tcb.snd.UNA tcb.snd.NXT = u
    generalize tcb.snd.WND = w
    show (((((w + (2 ^ 32 - u % 2 ^ 32)) % 2 ^ 32 + (2 ^ 32 - 1 % 2 ^ 32)) % 2 ^ 32 : Nat)) : Int)
      = ((w : Int) - (u : Int) - 1) % 2 ^ 32
    omega
  · generalize tcb.snd.UNA = a
    generalize tcb.snd.NXT = b
    show ((((b + (2 ^ 32 - a % 2 ^ 32)) % 2 ^ 32 : Nat)) : Int) = ((b : Int) - (a : Int)) % 2 ^ 32
    omega

theorem MaxInFlightData_value_witness :
    sampleInFlight.hasIRS = true ∧ sampleInFlight.MaxInFlightData.2 = 989 ∧
      hsA1.hasIRS = false ∧ hsA1.MaxInFlightData.2 = 0 ∧
      (sampleInFlight.MaxInFlightData.2 : Int)
        = ((sampleInFlight.snd.WND : Int)
            - (Sizeof sampleInFlight.snd.UNA sampleInFlight.snd.NXT : Int) - 1) % 2 ^ 32 :=
  ⟨by decide, by decide, by decide,
    (MaxInFlightData_value hsA1).2.1 (by decide),
    (MaxInFlightData_value sampleInFlight).2.2.2.1 (by decide)⟩

/-- C23 fails on the code: `SetRecvWindow` assigns `rcv.WND` in any state.  A
fresh control block after `SetRecvWindow(1000)` is reachable by public calls,
its `State()` is CLOSED and its `RecvWindow()` is 1000; the control block B of
the close scenario, CLOSED after the final ACK, is reachable as well once
`SetRecvWindow(1000)` is called on it. -/
theorem RecvWindow_nonzero_when_closed :
    Reachable specMethods (ControlBlock.zero.SetRecvWindow 1000) ∧
    (ControlBlock.zero.SetRecvWindow 1000).State = State.StateClosed ∧
    (ControlBlock.zero.SetRecvWindow 1000).RecvWindow = 1000 ∧
    clB5.State = State.StateClosed ∧ clB5.RecvWindow = 0 ∧
    (clB5.SetRecvWindow 1000).State = State.StateClosed ∧
    (clB5.SetRecvWindow 1000).RecvWindow = 1000 :=
  ⟨Reachable.setRecvWindow _ _ Reachable.fresh, by decide, by decide, by decide, by decide,
    by decide, by decide⟩

/-- C24: the drain of the pending queue in `Send`.  For an accepted segment
with flags `F`, from the queue `[p0, p1]` and with `N` the flags that the state
transition queues (FIN|ACK for a segment with ACK and without FIN in
CLOSE-WAIT, nothing otherwise): if every bit of slot 0 is carried by the
segment, the queue afterwards is `[p1 | N, 0]`; if some bit of slot 0 is not
carried, slot 1 is still `p1` and slot 0 is `(p0 minus F) | N`, bit by bit: a
bit is set in it exactly when it is set in `p0` and not in `F`, or set in
`N`. -/
theorem Send_pending_drain (m : Methods) (tcb : ControlBlock) (seg : Segment)
    (h : m.validateOutgoingSegment tcb seg = none) :
    ((∀ i : Nat, tcb.pending.1.testBit i = true → seg.Flags.testBit i = true) →
      (ControlBlock.Send m tcb seg).1.pending =
        (tcb.pending.2 |||
          (if tcb.state = State.StateCloseWait ∧ seg.Flags.HasAny FlagFIN = false ∧
              seg.Flags.HasAny FlagACK = true then finack else 0), 0)) ∧
    ((∃ i : Nat, tcb.pending.1.testBit i = true ∧ seg.Flags.testBit i = false) →
      (ControlBlock.Send m tcb seg).1.pending.2 = tcb.pending.2 ∧
      ∀ i : Nat, (ControlBlock.Send m tcb seg).1.pending.1.testBit i =
        ((tcb.pending.1.testBit i && !seg.Flags.testBit i) ||
          (if tcb.state = State.StateCloseWait ∧ seg.Flags.HasAny FlagFIN = false ∧
              seg.Flags.HasAny FlagACK = true then finack else 0).testBit i)) := by
  have hN : (match tcb.state with
      | State.StateSynRcvd =>
        (if seg.Flags.HasAny FlagFIN = true then State.StateFinWait1 else tcb.state, (0 : Flags))
      | State.StateClosing =>
        (if seg.Flags.HasAny FlagACK = true then State.StateTimeWait else tcb.state, 0)
      | State.StateEstablished =>
        (if seg.Flags.HasAny FlagFIN = true then State.StateFinWait1 else tcb.state, 0)
      | State.StateCloseWait =>
        if seg.Flags.HasAny FlagFIN = true then (State.StateLastAck, 0)
        else if seg.Flags.HasAny FlagACK = true then (tcb.state, finack)
        else (tcb.state, 0)
      | _ => (tcb.state, 0)).2
      = (if tcb.state = State.StateCloseWait ∧ seg.Flags.HasAny FlagFIN = false ∧
          seg.Flags.HasAny FlagACK = true then finack else 0) := by
    cases hs : tcb.state <;> cases hf : seg.Flags.HasAny FlagFIN <;>
      cases ha : seg.Flags.HasAny FlagACK <;> simp
  refine ⟨?_, ?_⟩
  · intro hall
    have h0 := (Flags.clear_eq_zero_iff tcb.pending.1 seg.Flags).mpr hall
    simp only [ControlBlock.Send, h, h0, if_true, hN]
  · rintro ⟨k, hk1, hk2⟩
    have h0 : Flags.clear tcb.pending.1 seg.Flags ≠ 0 := by
      intro hz
      have := (Flags.clear_eq_zero_iff tcb.pending.1 seg.Flags).mp hz k hk1
      rw [hk2] at this
      cases this
    have hp : (ControlBlock.Send m tcb seg).1.pending =
        (Flags.clear tcb.pending.1 seg.Flags |||
          (if tcb.state = State.StateCloseWait ∧ seg.Flags.HasAny FlagFIN = false ∧
              seg.Flags.HasAny FlagACK = true then finack else 0), tcb.pending.2) := by
      simp only [ControlBlock.Send, h, h0, if_false, hN]
    rw [hp]
    refine ⟨rfl, ?_⟩
    intro i
    show (Flags.clear tcb.pending.1 seg.Flags ||| _).testBit i = _
    rw [Nat.testBit_or, Flags.clear_testBit]

theorem Send_pending_drain_witness :
    specMethods.validateOutgoingSegment hsB1 sampleSynOnly = none ∧
      hsB1.pending = (synack, 0) ∧
      (ControlBlock.Send specMethods hsB1 sampleSynOnly).1.pending.1.testBit 1 = false ∧
      (ControlBlock.Send specMethods hsB1 sampleSynOnly).1.pending.1.testBit 4 = true ∧
      (ControlBlock.Send specMethods hsB1 sampleSynOnly).1.pending = (FlagACK, 0) ∧
      clB3.pending = (FlagFIN, FlagACK) ∧
      (ControlBlock.Send specMethods clB3 clFinB).1.pending = (FlagACK, 0) :=
  have h := (Send_pending_drain specMethods hsB1 sampleSynOnly (by decide)).2
    ⟨4, by decide, by decide⟩
  ⟨by decide, by decide, (h.2 1).trans (by decide), (h.2 4).trans (by decide), by decide,
    by decide,
    ((Send_pending_drain specMethods clB3 clFinB (by decide)).1 (by
      intro i hi
      have h0 : Flags.clear clB3.pending.1 clFinB.Flags = 0 := by decide
      exact (Flags.clear_eq_zero_iff _ _).mp h0 i hi)).trans (by decide)⟩

/-- C25, as stated, fails.  The control block `clB3` (LAST-ACK after `Close` in
CLOSE-WAIT, pending `[FIN, ACK]`) has a well-formed queue; it accepts a
segment without ACK, and afterwards slot 0 is empty while the ACK is still in
slot 1. -/
theorem pendingOk_not_preserved_by_Recv :
    clB3.State = State.StateLastAck ∧ clB3.pending = (FlagFIN, FlagACK) ∧ clB3.pendingOk ∧
    ControlBlock.Recv specMethods clB3 sampleNoFlagByte
      = Outcome.returned
          { clB3 with pending := (0, FlagACK), rcv := { clB3.rcv with NXT := 103 } } none ∧
    ¬ (ControlBlock.Recv specMethods clB3 sampleNoFlagByte).tcb.pendingOk := by
  decide

/-- C25, amended: "if slot 1 is non-empty then slot 0 is non-empty" holds for a
fresh control block, after every successful `Open`, after every accepted
`Send`, and after every `Close` on a control block for which it held.  `Recv`
replaces slot 0 by the flags of the handler and leaves slot 1 as the handler
left it: after an accepted `Recv` the property holds exactly when the handler
returned some flag or left slot 1 empty. -/
theorem pendingOk_operations (m : Methods) (tcb : ControlBlock) :
    ControlBlock.zero.pendingOk ∧
    (∀ (iss : Value) (wnd : Size) (state : State),
      (tcb.Open iss wnd state).2 = none → (tcb.Open iss wnd state).1.pendingOk) ∧
    (tcb.pendingOk → tcb.Close.1.pendingOk) ∧
    (∀ seg : Segment, m.validateOutgoingSegment tcb seg = none →
      (ControlBlock.Send m tcb seg).1.pendingOk) ∧
    (∀ (seg : Segment) (tcb' : ControlBlock),
      ControlBlock.Recv m tcb seg = Outcome.returned tcb' none →
      ∃ hd : Handled, tcb.rcvDispatch m seg = some hd ∧
        tcb'.pending = (hd.pending, hd.tcb.pending.2) ∧
        (tcb'.pendingOk ↔ (hd.tcb.pending.2 ≠ 0 → hd.pending ≠ 0))) := by
  refine ⟨by decide, ?_, ?_, ?_, ?_⟩
  · intro iss wnd state he
    obtain ⟨hs, ht, hw⟩ := Open_nil_guards tcb iss wnd state he
    have hp := (Open_valid tcb iss wnd state hs ht hw).2.2.1
    unfold ControlBlock.pendingOk
    rw [hp]
    split <;> simp
  · intro hok
    unfold ControlBlock.Close
    cases hs : tcb.state <;> simp only [ControlBlock.pendingOk, ControlBlock.close]
    all_goals first
      | exact hok
      | (intro _; exact Flags.or_ne_zero_right _ FlagFIN (by decide))
      | (intro _; decide)
      | (intro hc; exact absurd rfl hc)
  · intro seg hv
    simp only [ControlBlock.Send, hv, ControlBlock.pendingOk]
    by_cases h0 : Flags.clear tcb.pending.1 seg.Flags = 0
    · simp [h0]
    · simp only [h0, if_false]
      intro _
      exact Flags.or_ne_zero_left _ _ h0
  · intro seg tcb' h
    obtain ⟨hd, hdisp, -, rfl⟩ := Recv_nil_form m tcb tcb' seg h
    exact ⟨hd, hdisp, rfl, Iff.rfl⟩

theorem pendingOk_operations_witness :
    clB2.pendingOk ∧ clB2.Close.1.pending = (FlagFIN, FlagACK) ∧ clB2.Close.1.pendingOk ∧
      (ControlBlock.Send specMethods clB3 clFinB).1.pendingOk :=
  have h := pendingOk_operations specMethods clB2
  have h3 := pendingOk_operations specMethods clB3
  ⟨by decide, by decide, h.2.2.1 (by decide), h3.2.2.2.1 clFinB (by decide)⟩

/-- C26 fails on the code: the subtraction in `MaxInFlightData` wraps around.
`sampleEstablished` accepts an ACK of the peer that advertises a window of 0;
afterwards `snd.WND = 0`, nothing is in flight, and `MaxInFlightData` returns
`2 ^ 32 − 1`.  With ten bytes in flight and a window shrunk to 5 it returns
`2 ^ 32 − 6`. -/
theorem MaxInFlightData_exceeds_window :
    ControlBlock.Recv specMethods sampleEstablished sampleZeroWindow
      = Outcome.returned
          { sampleEstablished with snd := { sampleEstablished.snd with WND := 0 } } none ∧
    (ControlBlock.Recv specMethods sampleEstablished sampleZeroWindow).tcb.snd.WND = 0 ∧
    (ControlBlock.Recv specMethods sampleEstablished sampleZeroWindow).tcb.MaxInFlightData.2
      = 4294967295 ∧
    (ControlBlock.Recv specMethods sampleInFlight sampleShrinkWindow).tcb.snd.WND = 5 ∧
    (ControlBlock.Recv specMethods sampleInFlight sampleShrinkWindow).tcb.MaxInFlightData.2
      = 4294967290 ∧
    ¬ ((ControlBlock.Recv specMethods sampleEstablished sampleZeroWindow).tcb.MaxInFlightData.2
      ≤ (ControlBlock.Recv specMethods sampleEstablished sampleZeroWindow).tcb.snd.WND) := by
  decide

set_option maxRecDepth 100000 in
/-- C27: `OptNum.String` is total and never slices out of range.  The index
table has 63 entries, is strictly increasing, starts at 0 and ends at 952, the
length of the name string.  For every `i < 62`, `String` returns the `i`-th
name, which is not empty (1 gives "SubnetMask", 53 gives "MessageType", 61
gives "ClientIdentifier1"); for every `i ≥ 62` it returns "OptNum(", the
decimal numeral of `i` and ")"; it returns for every `i`. -/
theorem Dhcp.OptNum_String_total :
    Dhcp._OptNum_index.length = 63 ∧
    List.Pairwise (fun a b => a < b) Dhcp._OptNum_index ∧
    Dhcp._OptNum_index.head? = some 0 ∧
    Dhcp._OptNum_index.getLast? = some 952 ∧
    Dhcp._OptNum_name.length = 952 ∧
    (∀ i : Nat, i < 62 →
      ∃ n : String, Dhcp.optNames[i]? = some n ∧ n ≠ "" ∧ Dhcp.OptNum.String i = some n) ∧
    Dhcp.OptNum.String 1 = some "SubnetMask" ∧
    Dhcp.OptNum.String 53 = some "MessageType" ∧
    Dhcp.OptNum.String 61 = some "ClientIdentifier1" ∧
    (∀ i : Nat, 62 ≤ i → Dhcp.OptNum.String i = some ("OptNum(" ++ Nat.repr i ++ ")")) ∧
    (∀ i : Nat, (Dhcp.OptNum.String i).isSome = true) := by
  have hbig : ∀ i : Nat, 62 ≤ i →
      Dhcp.OptNum.String i = some ("OptNum(" ++ Nat.repr i ++ ")") := by
    intro i hi
    have hlen : Dhcp._OptNum_index.length - 1 = 62 := by decide
    unfold Dhcp.OptNum.String
    rw [hlen, if_pos hi]
  have hsmall : ∀ i : Nat, i < 62 →
      ∃ n : String, Dhcp.optNames[i]? = some n ∧ n ≠ "" ∧ Dhcp.OptNum.String i = some n := by
    intro i hi
    have hlen : Dhcp.optNames.length = 62 := by decide
    have hne : ∀ n ∈ Dhcp.optNames, n ≠ "" := by decide
    have hi' : i < Dhcp.optNames.length := by rw [hlen]; exact hi
    refine ⟨Dhcp.optNames[i], List.getElem?_eq_getElem hi', hne _ (List.getElem_mem hi'), ?_⟩
    have h1 : ((List.range 62).map Dhcp.OptNum.String)[i]? = some (Dhcp.OptNum.String i) := by
      rw [List.getElem?_map, List.getElem?_range hi]
      rfl
    have h2 : (Dhcp.optNames.map some)[i]? = some (some Dhcp.optNames[i]) := by
      rw [List.getElem?_map, List.getElem?_eq_getElem hi']
      rfl
    rw [Dhcp.String_table, h2] at h1
    exact (Option.some.inj h1).symm
  refine ⟨by decide, by decide, by decide, by decide, by decide, hsmall, by decide, by decide,
    by decide, hbig, ?_⟩
  intro i
  by_cases hi : i < 62
  · obtain ⟨n, -, -, hn⟩ := hsmall i hi
    rw [hn]; rfl
  · rw [hbig i (Nat.not_lt.mp hi)]; rfl

theorem Dhcp.OptNum_String_total_witness :
    Dhcp.OptNum.String 62 = some "OptNum(62)" ∧ Dhcp.OptNum.String 255 = some "OptNum(255)" ∧
      ∃ n : String, Dhcp.optNames[60]? = some n ∧ n ≠ "" ∧ Dhcp.OptNum.String 60 = some n :=
  ⟨(Dhcp.OptNum_String_total.2.2.2.2.2.2.2.2.2.1 62 (by decide)).trans (by decide),
    (Dhcp.OptNum_String_total.2.2.2.2.2.2.2.2.2.1 255 (by decide)).trans (by decide),
    Dhcp.OptNum_String_total.2.2.2.2.2.1 60 (by decide)⟩

end Seqs
